import Mathlib

/-!
Verification development for the earnings-db caching proxy.

The TypeScript sources are shallowly embedded as executable Lean
definitions.  Conventions used throughout:

* JavaScript numbers are modelled as rationals (`ℚ`); the properties
  checked here (field presence, truthiness dispatch, ordering, scaling
  by 100) do not depend on floating-point rounding.
* A nullable / optional JavaScript value is `Option α`; `none` stands
  for both `null` and `undefined` wherever the source treats the two
  alike (every site modelled here reads them through truthiness or
  through Prisma update semantics, which coincide on the two).
* JavaScript truthiness: a number is truthy iff it is nonzero, a string
  iff it is nonempty, `null`/`undefined` are falsy, objects and arrays
  (including the empty array) are truthy.
* ISO date strings (`YYYY-MM-DD`) are order-isomorphic to integers, so
  calendar dates and timestamps are modelled as `Int`.
* The Redis cache maps a key to `Option (Option α)`: `none` means no
  entry, `some none` an entry holding the JSON text `null`, and
  `some (some v)` an entry holding a record.  `getCached` JSON-parses
  the stored text, so a stored `null` is returned as `null` — callers
  cannot distinguish it from a miss (`Option.join`).
* `setCached` (src/src/utils/redis.ts, lines 51-57) forwards to Redis
  `SETEX`, which rejects a non-positive expiry with an error; the
  `catch` in `setCached` swallows that error, so a call with TTL `0`
  leaves the cache unchanged.
* Prisma `update` data skips fields whose value is `undefined` and
  writes all others; `upsert` on an existing row runs the `update`
  branch.
-/

namespace EarningsDb

/-- JS truthiness for an optional number: `null`, `undefined` and `0`
are falsy. -/
def qTruthy : Option ℚ → Bool
  | none => false
  | some v => v != 0

/-- JS truthiness for an optional string: `null`, `undefined` and the
empty string are falsy. -/
def sTruthy : Option String → Bool
  | none => false
  | some v => v != ""

/-- JS truthiness for an optional integer. -/
def iTruthy : Option Int → Bool
  | none => false
  | some v => v != 0

/-- `a ? a-as-number : undefined` — the guard pattern
`db.field ? Number(db.field) : undefined` used by the DB-to-interface
converters: a falsy stored value (absent or zero) becomes `undefined`. -/
def truthyNumOrNone (a : Option ℚ) : Option ℚ :=
  if qTruthy a then a else none

/-- JS `a || b` on optional numbers: `a` when truthy, else `b`. -/
def jsOrQ (a b : Option ℚ) : Option ℚ :=
  if qTruthy a then a else b

/-- `s.toUpperCase()` as a character-list map. -/
def jsToUpper (s : String) : String :=
  ⟨s.data.map Char.toUpper⟩

/-- `s.trim()`: strip leading and trailing whitespace. -/
def jsTrim (s : String) : String :=
  ⟨((s.data.dropWhile Char.isWhitespace).reverse.dropWhile
      Char.isWhitespace).reverse⟩

/-- Substring occurrence test on character lists. -/
def containsSubAux (pat : List Char) : List Char → Bool
  | [] => pat.isEmpty
  | c :: rest =>
    if pat.isPrefixOf (c :: rest) then true else containsSubAux pat rest

/-- JS `s.includes(pat)`. -/
def strContains (s pat : String) : Bool :=
  containsSubAux pat.data s.data

/-- `String.split` on a nonempty separator, over character lists. -/
def splitOnAuxL (s0 : Char) (srest : List Char) :
    List Char → List Char → List (List Char)
  | [], acc => [acc.reverse]
  | c :: rest, acc =>
    if (s0 :: srest).isPrefixOf (c :: rest) then
      (acc.reverse) :: splitOnAuxL s0 srest (rest.drop srest.length) []
    else splitOnAuxL s0 srest rest (c :: acc)
termination_by l _ => l.length
decreasing_by
  · simp [List.length_drop]
    omega
  · simp

/-- JS `s.split(sep)` for a nonempty separator (all separators used by
the embedded code are nonempty literals). -/
def jsSplit (s sep : String) : List String :=
  match sep.data with
  | [] => [s]
  | s0 :: srest => (splitOnAuxL s0 srest s.data []).map (fun l => ⟨l⟩)

/-- Leading-digit run of a character list, as a natural number with a
flag telling whether at least one digit was read. -/
def digitsVal : List Char → Option Nat → Option Nat
  | [], acc => acc
  | c :: cs, acc =>
    if c.isDigit then
      digitsVal cs (some ((acc.getD 0) * 10 + (c.toNat - '0'.toNat)))
    else acc

/-- JS `parseInt(s)` (radix 10): skip leading whitespace, read an
optional sign and then a leading digit run; `NaN` (here `none`) when no
digit is found.  Comparisons against `NaN` are false in JS, which the
call sites reproduce by matching on `none`. -/
def jsParseInt (s : String) : Option Int :=
  let chars := s.data.dropWhile (fun c => c = ' ')
  match chars with
  | '-' :: rest => (digitsVal rest none).map (fun n => -(n : Int))
  | '+' :: rest => (digitsVal rest none).map (fun n => (n : Int))
  | rest => (digitsVal rest none).map (fun n => (n : Int))

/-- `parseInt(x) < bound` under JS `NaN` semantics. -/
def jsLtInt (a : Option Int) (bound : Int) : Bool :=
  match a with
  | none => false
  | some v => v < bound

/-- `parseInt(x) >= bound` under JS `NaN` semantics. -/
def jsGeInt (a : Option Int) (bound : Int) : Bool :=
  match a with
  | none => false
  | some v => bound ≤ v

/-- `parseInt(x) === bound` under JS `NaN` semantics. -/
def jsEqInt (a : Option Int) (bound : Int) : Bool :=
  match a with
  | none => false
  | some v => v = bound

/-- Keys of a JS `Map`/`Set` in insertion order: first occurrence of
each element, original order preserved. -/
def firstOccurrences {α : Type} [DecidableEq α] (l : List α) : List α :=
  l.foldl (fun acc d => if d ∈ acc then acc else acc ++ [d]) []

/-- Redis `SETEX`-backed `setCached` on a single key
(src/src/utils/redis.ts, lines 51-57): Redis rejects a non-positive
expiry and the helper swallows the error, so the entry is written only
when `ttl > 0`.  The stored value may itself be `null` (`some none`). -/
def setCachedEntry (old : Option (Option α)) (value : Option α) (ttl : Int) :
    Option (Option α) :=
  if ttl > 0 then some value else old

/-- `getCached` JSON-parses the stored text; an entry holding `null`
is returned as `null`, indistinguishable from a miss
(src/src/utils/redis.ts, lines 41-49). -/
def getCachedEntry (entry : Option (Option α)) : Option α :=
  entry.join

/-! ### TTL and staleness constants (src/src/utils/constants.ts) -/

/-- `CACHE_TTL` (seconds), src/src/utils/constants.ts lines 5-11. -/
def CACHE_TTL_LOGO : Int := 30 * 24 * 60 * 60
def CACHE_TTL_FUNDAMENTALS : Int := 7 * 24 * 60 * 60
def CACHE_TTL_MARKET_CAP : Int := 24 * 60 * 60
def CACHE_TTL_EARNINGS_HISTORICAL : Int := 365 * 24 * 60 * 60
def CACHE_TTL_EARNINGS_UPCOMING : Int := 0

/-- `UPDATE_THRESHOLD` (milliseconds), src/src/utils/constants.ts
lines 17-23. -/
def UPDATE_THRESHOLD_LOGO : Int := 90 * 24 * 60 * 60 * 1000
def UPDATE_THRESHOLD_FUNDAMENTALS : Int := 7 * 24 * 60 * 60 * 1000
def UPDATE_THRESHOLD_MARKET_CAP : Int := 24 * 60 * 60 * 1000

/-! ### Field-indexed records for the `fundamentals` entity

The TS `FundamentalsData` interface, the Prisma `Fundamental` row and
the partial objects returned by the category sub-fetches all share one
field space.  A record is a function from field names to optional
values; `Object.assign` and Prisma-update become generic overlays.
`FField` lists the union of the interface fields and the row columns
(`freeCashflowRow`, `investingCashFlow`, `financingCashFlow`, `capex`,
`week52High`, `week52Low`, `companyName` are row columns; the rest are
interface fields). -/

inductive FField where
  | ticker | name | companyName | exchange | sector | industry
  | website | description | currency | employees
  | marketCap | sharesOutstanding | currentPrice | averageVolume
  | week52High | week52Low | fiftyTwoWeekHigh | fiftyTwoWeekLow
  | priceToEarnings | priceToBook | priceToSales | priceToCashFlow
  | priceToOperatingCashFlow | priceToFreeCashFlow
  | enterpriseValue | evToSales | evToEbitda | earningsPerShare
  | returnOnAssets | returnOnEquity
  | profitMargin | operatingMargin | grossMargin
  | revenueGrowth | earningsGrowth
  | currentRatio | quickRatio | cashRatio | debtToEquity
  | dividendYield | dividendRate
  | freeCashFlow | freeCashflowRow
  | revenue | grossProfit | operatingIncome | netIncome | ebitda
  | totalAssets | currentAssets | totalLiabilities | currentLiabilities
  | totalEquity | cash | longTermDebt
  | operatingCashFlow | cashFromInvesting | investingCashFlow
  | cashFromFinancing | financingCashFlow
  | capitalExpenditures | capex
  | beta | updatedAtF
deriving DecidableEq

/-- A field value: string, number (rational) or integer. -/
inductive Val where
  | s (v : String)
  | q (v : ℚ)
  | i (v : Int)
deriving DecidableEq

/-- A fundamentals record / row / partial object. -/
abbrev Rec := FField → Option Val

/-- JS truthiness of an optional field value. -/
def truthyV : Option Val → Bool
  | none => false
  | some (.s v) => v != ""
  | some (.q v) => v != 0
  | some (.i v) => v != 0

/-- The converter guard `x ? Number(x) : undefined`: keep a truthy
value, drop a falsy one. -/
def truthyVOrNone (a : Option Val) : Option Val :=
  if truthyV a then a else none

/-- Project a string out of a field value. -/
def strOfV : Option Val → Option String
  | some (.s v) => some v
  | _ => none

/-- Project a number out of a field value (`Number(x)`; integers
coerce). -/
def qOfV : Option Val → Option ℚ
  | some (.q v) => some v
  | some (.i v) => some (v : ℚ)
  | _ => none

/-- `Object.assign(rec, patch)`: every key present in the source object
overwrites, including keys whose value is `undefined`.  `patch f = none`
means the key is not in the source object. -/
def objAssign (rec : Rec) (p : FField → Option (Option Val)) : Rec :=
  fun f => (p f).getD (rec f)

/-- Apply a sub-fetch patch when the settled promise was fulfilled with
a non-null value (`x.status === 'fulfilled' && x.value`). -/
def applyIfFulfilled (rec : Rec) (p : Option (FField → Option (Option Val))) : Rec :=
  match p with
  | some patch => objAssign rec patch
  | none => rec

/-- Prisma `update` semantics: a field with value `undefined` in the
data object — and likewise a field absent from it — is skipped; any
other field is written.  Both "skip" cases are collapsed into `none`. -/
def prismaUpdateApply (row : Rec) (upd : Rec) : Rec :=
  fun f => match upd f with
  | some v => some v
  | none => row f

/-- Prisma `upsert`: run the update branch on an existing row; on a
missing row create one with the primary key and the update fields
(an `undefined` field becomes a NULL column). -/
def dbApplyUpsert (prior : Option Rec) (tk : String) (upd : Rec) : Rec :=
  match prior with
  | some row => prismaUpdateApply row upd
  | none => fun f => if f = FField.ticker then some (.s tk) else upd f

/-! ### Upstream sub-fetch payloads (fields the services read) -/

/-- `/v3/reference/tickers/{t}` result fields read by
`fetchTickerInfo` (both revisions of fundamentalsService.ts). -/
structure TickerInfoRes where
  name : Option String
  primary_exchange : Option String
  sic_description : Option String
  description : Option String
  homepage_url : Option String
  currency_name : Option String
  market_cap : Option ℚ
  share_class_shares_outstanding : Option ℚ
  total_employees : Option Int
deriving DecidableEq

/-- Object literal built by `fetchTickerInfo`
(src/src/services/fundamentalsService.ts, lines 328-340 and
1037-1049). -/
def tickerInfoPatch (r : TickerInfoRes) : FField → Option (Option Val)
  | .name => some (r.name.map .s)
  | .exchange => some (r.primary_exchange.map .s)
  | .sector => some (r.sic_description.map .s)
  | .industry => some (r.sic_description.map .s)
  | .marketCap => some (r.market_cap.map .q)
  | .sharesOutstanding => some (r.share_class_shares_outstanding.map .q)
  | .description => some (r.description.map .s)
  | .website => some (r.homepage_url.map .s)
  | .employees => some (r.total_employees.map .i)
  | .currency => some ((r.currency_name.map jsToUpper).map .s)
  | _ => none

/-- `/stocks/financials/v1/ratios` result fields read by
`fetchRatios`. -/
structure RatiosRes where
  price : Option ℚ
  market_cap : Option ℚ
  average_volume : Option ℚ
  earnings_per_share : Option ℚ
  price_to_earnings : Option ℚ
  price_to_book : Option ℚ
  price_to_sales : Option ℚ
  price_to_cash_flow : Option ℚ
  price_to_free_cash_flow : Option ℚ
  enterprise_value : Option ℚ
  ev_to_sales : Option ℚ
  ev_to_ebitda : Option ℚ
  return_on_assets : Option ℚ
  return_on_equity : Option ℚ
  current : Option ℚ
  quick : Option ℚ
  cash : Option ℚ
  debt_to_equity : Option ℚ
  dividend_yield : Option ℚ
  free_cash_flow : Option ℚ
deriving DecidableEq

/-- Object literal built by `fetchRatios`
(src/src/services/fundamentalsService.ts, lines 372-407 and
1081-1116). -/
def ratiosPatch (r : RatiosRes) : FField → Option (Option Val)
  | .currentPrice => some (r.price.map .q)
  | .marketCap => some (r.market_cap.map .q)
  | .averageVolume => some (r.average_volume.map .q)
  | .earningsPerShare => some (r.earnings_per_share.map .q)
  | .priceToEarnings => some (r.price_to_earnings.map .q)
  | .priceToBook => some (r.price_to_book.map .q)
  | .priceToSales => some (r.price_to_sales.map .q)
  | .priceToCashFlow => some (r.price_to_cash_flow.map .q)
  | .priceToOperatingCashFlow => some (r.price_to_cash_flow.map .q)
  | .priceToFreeCashFlow => some (r.price_to_free_cash_flow.map .q)
  | .enterpriseValue => some (r.enterprise_value.map .q)
  | .evToSales => some (r.ev_to_sales.map .q)
  | .evToEbitda => some (r.ev_to_ebitda.map .q)
  | .returnOnAssets => some (r.return_on_assets.map .q)
  | .returnOnEquity => some (r.return_on_equity.map .q)
  | .currentRatio => some (r.current.map .q)
  | .quickRatio => some (r.quick.map .q)
  | .cashRatio => some (r.cash.map .q)
  | .debtToEquity => some (r.debt_to_equity.map .q)
  | .dividendYield => some (r.dividend_yield.map .q)
  | .freeCashFlow => some (r.free_cash_flow.map .q)
  | _ => none

/-- `/stocks/financials/v1/income-statements` first-result fields read
by the first-revision `fetchIncomeStatement`. -/
structure IncomeRes where
  revenue : Option ℚ
  gross_profit : Option ℚ
  operating_income : Option ℚ
  net_income_loss_attributable_common_shareholders : Option ℚ
  ebitda : Option ℚ
deriving DecidableEq

/-- Object literal built by `fetchIncomeStatement`
(src/src/services/fundamentalsService.ts, lines 438-461, first
revision): margins are computed only when revenue and the respective
numerator are truthy (`revenue && netIncome ? netIncome / revenue :
undefined`). -/
def incomePatchV1 (r : IncomeRes) : FField → Option (Option Val) :=
  let revenue := r.revenue
  let grossProfit := r.gross_profit
  let operatingIncome := r.operating_income
  let netIncome := r.net_income_loss_attributable_common_shareholders
  let profitMargin : Option ℚ :=
    if qTruthy revenue && qTruthy netIncome then
      some (netIncome.getD 0 / revenue.getD 0) else none
  let operatingMargin : Option ℚ :=
    if qTruthy revenue && qTruthy operatingIncome then
      some (operatingIncome.getD 0 / revenue.getD 0) else none
  let grossMargin : Option ℚ :=
    if qTruthy revenue && qTruthy grossProfit then
      some (grossProfit.getD 0 / revenue.getD 0) else none
  fun f => match f with
  | .revenue => some (revenue.map .q)
  | .grossProfit => some (grossProfit.map .q)
  | .operatingIncome => some (operatingIncome.map .q)
  | .netIncome => some (netIncome.map .q)
  | .ebitda => some (r.ebitda.map .q)
  | .profitMargin => some (profitMargin.map .q)
  | .operatingMargin => some (operatingMargin.map .q)
  | .grossMargin => some (grossMargin.map .q)
  | _ => none

/-- Previous-year figures used by the second-revision
`fetchIncomeStatement` for YoY growth. -/
structure IncomePrevYear where
  revenue : Option ℚ
  net_income_loss_attributable_common_shareholders : Option ℚ
deriving DecidableEq

/-- `/stocks/financials/v1/income-statements` results read by the
second-revision `fetchIncomeStatement` (annual, limit 2). -/
structure IncomeV2Res where
  revenue : Option ℚ
  gross_profit : Option ℚ
  operating_income : Option ℚ
  net_income_loss_attributable_common_shareholders : Option ℚ
  ebitda : Option ℚ
  previous : Option IncomePrevYear
deriving DecidableEq

/-- Object literal built by the second-revision `fetchIncomeStatement`
(src/src/services/fundamentalsService.ts, lines 1148-1194): same
margins as the first revision plus YoY growth percentages when two
years of data are available. -/
def incomePatchV2 (r : IncomeV2Res) : FField → Option (Option Val) :=
  let revenue := r.revenue
  let grossProfit := r.gross_profit
  let operatingIncome := r.operating_income
  let netIncome := r.net_income_loss_attributable_common_shareholders
  let profitMargin : Option ℚ :=
    if qTruthy revenue && qTruthy netIncome then
      some (netIncome.getD 0 / revenue.getD 0) else none
  let operatingMargin : Option ℚ :=
    if qTruthy revenue && qTruthy operatingIncome then
      some (operatingIncome.getD 0 / revenue.getD 0) else none
  let grossMargin : Option ℚ :=
    if qTruthy revenue && qTruthy grossProfit then
      some (grossProfit.getD 0 / revenue.getD 0) else none
  let revenueGrowth : Option ℚ :=
    match r.previous with
    | some prev =>
      if qTruthy revenue && qTruthy prev.revenue && prev.revenue.getD 0 != 0 then
        some ((revenue.getD 0 - prev.revenue.getD 0) / prev.revenue.getD 0 * 100)
      else none
    | none => none
  let earningsGrowth : Option ℚ :=
    match r.previous with
    | some prev =>
      let prevNetIncome := prev.net_income_loss_attributable_common_shareholders
      if qTruthy netIncome && qTruthy prevNetIncome && prevNetIncome.getD 0 != 0 then
        some ((netIncome.getD 0 - prevNetIncome.getD 0) / prevNetIncome.getD 0 * 100)
      else none
    | none => none
  fun f => match f with
  | .revenue => some (revenue.map .q)
  | .grossProfit => some (grossProfit.map .q)
  | .operatingIncome => some (operatingIncome.map .q)
  | .netIncome => some (netIncome.map .q)
  | .ebitda => some (r.ebitda.map .q)
  | .profitMargin => some (profitMargin.map .q)
  | .operatingMargin => some (operatingMargin.map .q)
  | .grossMargin => some (grossMargin.map .q)
  | .revenueGrowth => some (revenueGrowth.map .q)
  | .earningsGrowth => some (earningsGrowth.map .q)
  | _ => none

/-- `/stocks/financials/v1/balance-sheets` first-result fields read by
`fetchBalanceSheet`. -/
structure BalanceRes where
  total_assets : Option ℚ
  total_current_assets : Option ℚ
  total_liabilities : Option ℚ
  total_current_liabilities : Option ℚ
  total_equity : Option ℚ
  cash_and_equivalents : Option ℚ
  long_term_debt_and_capital_lease_obligations : Option ℚ
deriving DecidableEq

/-- Object literal built by `fetchBalanceSheet`
(src/src/services/fundamentalsService.ts, lines 492-508 and
1225-1241). -/
def balancePatch (r : BalanceRes) : FField → Option (Option Val) :=
  let currentRatio : Option ℚ :=
    if qTruthy r.total_current_assets && qTruthy r.total_current_liabilities then
      some (r.total_current_assets.getD 0 / r.total_current_liabilities.getD 0)
    else none
  fun f => match f with
  | .totalAssets => some (r.total_assets.map .q)
  | .currentAssets => some (r.total_current_assets.map .q)
  | .totalLiabilities => some (r.total_liabilities.map .q)
  | .currentLiabilities => some (r.total_current_liabilities.map .q)
  | .totalEquity => some (r.total_equity.map .q)
  | .cash => some (r.cash_and_equivalents.map .q)
  | .longTermDebt => some (r.long_term_debt_and_capital_lease_obligations.map .q)
  | .currentRatio => some (currentRatio.map .q)
  | _ => none

/-- `/stocks/financials/v1/cash-flow-statements` first-result fields
read by `fetchCashFlow`. -/
structure CashFlowRes where
  net_cash_from_operating_activities : Option ℚ
  net_cash_from_investing_activities : Option ℚ
  net_cash_from_financing_activities : Option ℚ
  purchase_of_property_plant_and_equipment : Option ℚ
deriving DecidableEq

/-- Object literal built by `fetchCashFlow`
(src/src/services/fundamentalsService.ts, lines 539-547 and
1272-1280). -/
def cashFlowPatch (r : CashFlowRes) : FField → Option (Option Val)
  | .operatingCashFlow => some (r.net_cash_from_operating_activities.map .q)
  | .cashFromInvesting => some (r.net_cash_from_investing_activities.map .q)
  | .cashFromFinancing => some (r.net_cash_from_financing_activities.map .q)
  | .capitalExpenditures => some (r.purchase_of_property_plant_and_equipment.map .q)
  | _ => none

/-- Result of the second-revision `fetch52WeekData`
(src/src/services/fundamentalsService.ts, lines 1290-1328): both
extrema are computed together from a nonempty bar list. -/
structure Week52Res where
  fiftyTwoWeekHigh : ℚ
  fiftyTwoWeekLow : ℚ
deriving DecidableEq

/-- Object literal returned by `fetch52WeekData` (lines 1320-1323). -/
def week52Patch (r : Week52Res) : FField → Option (Option Val)
  | .fiftyTwoWeekHigh => some (some (.q r.fiftyTwoWeekHigh))
  | .fiftyTwoWeekLow => some (some (.q r.fiftyTwoWeekLow))
  | _ => none

/-! ### FundamentalsService, first revision
(src/src/services/fundamentalsService.ts, lines 1-673) -/

/-- The record `{ ticker, updatedAt }` that `fetchFromPolygon` starts
from (lines 190-193). -/
def baseRecord (tk : String) (now : Int) : Rec := fun f =>
  match f with
  | .ticker => some (.s tk)
  | .updatedAtF => some (.i now)
  | _ => none

/-- The `Object.assign` chain of `FundamentalsService.fetchFromPolygon`,
first revision (lines 190-218): ticker info, then ratios, income
statement, balance sheet and cash flow, each applied only when its
settled promise was fulfilled with a non-null value.  The prior stored
record takes no part in this assembly. -/
def assembleV1 (tk : String) (now : Int) (ti : Option TickerInfoRes)
    (ra : Option RatiosRes) (inc : Option IncomeRes) (bs : Option BalanceRes)
    (cf : Option CashFlowRes) : Rec :=
  applyIfFulfilled (applyIfFulfilled (applyIfFulfilled (applyIfFulfilled
    (applyIfFulfilled (baseRecord tk now)
      (ti.map tickerInfoPatch))
      (ra.map ratiosPatch))
      (inc.map incomePatchV1))
      (bs.map balancePatch))
      (cf.map cashFlowPatch)

/-- `companyName: fundamentalsData.name || ''` — the only update field
that is always written, with the empty string when no name was
fetched. -/
def companyNameOf (d : Rec) : Val :=
  .s (if sTruthy (strOfV (d .name)) then (strOfV (d .name)).getD "" else "")

/-- The `updateData` object of the first-revision `fetchFromPolygon`
(lines 222-288), as the value Prisma will write per field (`none` =
field absent from the object or `undefined`, which Prisma skips). -/
def updFieldV1 (now : Int) (d : Rec) : Rec := fun f =>
  match f with
  | .companyName => some (companyNameOf d)
  | .exchange => d .exchange
  | .sector => d .sector
  | .industry => d .industry
  | .website => d .website
  | .description => d .description
  | .currency => d .currency
  | .employees => d .employees
  | .marketCap => d .marketCap
  | .sharesOutstanding => d .sharesOutstanding
  | .currentPrice => d .currentPrice
  | .averageVolume => d .averageVolume
  | .priceToEarnings => d .priceToEarnings
  | .priceToBook => d .priceToBook
  | .priceToSales => d .priceToSales
  | .priceToCashFlow => d .priceToCashFlow
  | .priceToFreeCashFlow => d .priceToFreeCashFlow
  | .enterpriseValue => d .enterpriseValue
  | .evToSales => d .evToSales
  | .evToEbitda => d .evToEbitda
  | .profitMargin => d .profitMargin
  | .operatingMargin => d .operatingMargin
  | .grossMargin => d .grossMargin
  | .returnOnAssets => d .returnOnAssets
  | .returnOnEquity => d .returnOnEquity
  | .debtToEquity => d .debtToEquity
  | .currentRatio => d .currentRatio
  | .quickRatio => d .quickRatio
  | .cashRatio => d .cashRatio
  | .dividendYield => d .dividendYield
  | .dividendRate => d .dividendRate
  | .freeCashflowRow => d .freeCashFlow
  | .revenue => d .revenue
  | .grossProfit => d .grossProfit
  | .operatingIncome => d .operatingIncome
  | .netIncome => d .netIncome
  | .ebitda => d .ebitda
  | .earningsPerShare => d .earningsPerShare
  | .totalAssets => d .totalAssets
  | .currentAssets => d .currentAssets
  | .totalLiabilities => d .totalLiabilities
  | .currentLiabilities => d .currentLiabilities
  | .totalEquity => d .totalEquity
  | .cash => d .cash
  | .longTermDebt => d .longTermDebt
  | .operatingCashFlow => d .operatingCashFlow
  | .investingCashFlow => d .cashFromInvesting
  | .financingCashFlow => d .cashFromFinancing
  | .capex => d .capitalExpenditures
  | .updatedAtF => some (.i now)
  | _ => none

/-- Effects of the first-revision `fetchFromPolygon` (lines 178-308):
the record returned to the caller (also cached in Redis), and the new
Durable Store row after the upsert.  `upsertOk = false` models a
throwing upsert, which lands in the catch block: nothing is cached and
`null` is returned. -/
structure FetchV1Out where
  result : Option Rec
  newRow : Option Rec
  cacheWrite : Option (Int × Rec)
  upstreamCalled : Bool

/-- First-revision `FundamentalsService.fetchFromPolygon`
(src/src/services/fundamentalsService.ts, lines 178-308). -/
def fetchFromPolygonV1 (tk : String) (now : Int) (prior : Option Rec)
    (ti : Option TickerInfoRes) (ra : Option RatiosRes) (inc : Option IncomeRes)
    (bs : Option BalanceRes) (cf : Option CashFlowRes) (upsertOk : Bool) :
    FetchV1Out :=
  let assembled := assembleV1 tk now ti ra inc bs cf
  if upsertOk then
    { result := some assembled
      newRow := some (dbApplyUpsert prior tk (updFieldV1 now assembled))
      cacheWrite := some (CACHE_TTL_FUNDAMENTALS, assembled)
      upstreamCalled := true }
  else
    { result := none
      newRow := none
      cacheWrite := none
      upstreamCalled := true }

/-! ### FundamentalsService, second revision
(src/src/services/fundamentalsService.ts, lines 675-1455) -/

/-- Second-revision `isIncompleteData`
(src/src/services/fundamentalsService.ts, lines 780-808): a record is
incomplete when any of exchange, sector, industry, market cap, current
price, total assets, revenue or operating cash flow is falsy. -/
def isIncompleteData (d : Rec) : Bool :=
  !(truthyV (d .exchange)) || !(truthyV (d .sector)) || !(truthyV (d .industry)) ||
  !(truthyV (d .marketCap)) || !(truthyV (d .currentPrice)) ||
  !(truthyV (d .totalAssets)) || !(truthyV (d .revenue)) ||
  !(truthyV (d .operatingCashFlow))

/-- Second-revision `dbToFundamentalsData`
(src/src/services/fundamentalsService.ts, lines 1370-1451): row columns
are mapped onto interface fields; every Decimal/BigInt column goes
through the `x ? Number(x) : undefined` guard, string columns are
copied as-is. -/
def dbToFundamentalsData (row : Rec) : Rec := fun f =>
  match f with
  | .ticker => row .ticker
  | .name => row .companyName
  | .exchange => row .exchange
  | .sector => row .sector
  | .industry => row .industry
  | .website => row .website
  | .description => row .description
  | .currency => row .currency
  | .employees => row .employees
  | .marketCap => truthyVOrNone (row .marketCap)
  | .sharesOutstanding => truthyVOrNone (row .sharesOutstanding)
  | .currentPrice => truthyVOrNone (row .currentPrice)
  | .averageVolume => truthyVOrNone (row .averageVolume)
  | .priceToEarnings => truthyVOrNone (row .priceToEarnings)
  | .priceToBook => truthyVOrNone (row .priceToBook)
  | .priceToSales => truthyVOrNone (row .priceToSales)
  | .priceToCashFlow => truthyVOrNone (row .priceToCashFlow)
  | .priceToOperatingCashFlow => truthyVOrNone (row .priceToCashFlow)
  | .priceToFreeCashFlow => truthyVOrNone (row .priceToFreeCashFlow)
  | .enterpriseValue => truthyVOrNone (row .enterpriseValue)
  | .evToSales => truthyVOrNone (row .evToSales)
  | .evToEbitda => truthyVOrNone (row .evToEbitda)
  | .earningsPerShare => truthyVOrNone (row .earningsPerShare)
  | .profitMargin => truthyVOrNone (row .profitMargin)
  | .operatingMargin => truthyVOrNone (row .operatingMargin)
  | .grossMargin => truthyVOrNone (row .grossMargin)
  | .returnOnAssets => truthyVOrNone (row .returnOnAssets)
  | .returnOnEquity => truthyVOrNone (row .returnOnEquity)
  | .revenueGrowth => truthyVOrNone (row .revenueGrowth)
  | .earningsGrowth => truthyVOrNone (row .earningsGrowth)
  | .currentRatio => truthyVOrNone (row .currentRatio)
  | .quickRatio => truthyVOrNone (row .quickRatio)
  | .cashRatio => truthyVOrNone (row .cashRatio)
  | .debtToEquity => truthyVOrNone (row .debtToEquity)
  | .dividendYield => truthyVOrNone (row .dividendYield)
  | .dividendRate => truthyVOrNone (row .dividendRate)
  | .freeCashFlow => truthyVOrNone (row .freeCashflowRow)
  | .revenue => truthyVOrNone (row .revenue)
  | .grossProfit => truthyVOrNone (row .grossProfit)
  | .operatingIncome => truthyVOrNone (row .operatingIncome)
  | .netIncome => truthyVOrNone (row .netIncome)
  | .ebitda => truthyVOrNone (row .ebitda)
  | .totalAssets => truthyVOrNone (row .totalAssets)
  | .currentAssets => truthyVOrNone (row .currentAssets)
  | .totalLiabilities => truthyVOrNone (row .totalLiabilities)
  | .currentLiabilities => truthyVOrNone (row .currentLiabilities)
  | .totalEquity => truthyVOrNone (row .totalEquity)
  | .cash => truthyVOrNone (row .cash)
  | .longTermDebt => truthyVOrNone (row .longTermDebt)
  | .operatingCashFlow => truthyVOrNone (row .operatingCashFlow)
  | .cashFromInvesting => truthyVOrNone (row .investingCashFlow)
  | .cashFromFinancing => truthyVOrNone (row .financingCashFlow)
  | .capitalExpenditures => truthyVOrNone (row .capex)
  | .beta => truthyVOrNone (row .beta)
  | .fiftyTwoWeekHigh => truthyVOrNone (row .week52High)
  | .fiftyTwoWeekLow => truthyVOrNone (row .week52Low)
  | .updatedAtF => row .updatedAtF
  | _ => none

/-- The `Object.assign` chain of the second-revision `fetchFromPolygon`
(lines 890-923): six parallel sub-fetches including 52-week data. -/
def assembleV2 (tk : String) (now : Int) (ti : Option TickerInfoRes)
    (ra : Option RatiosRes) (inc : Option IncomeV2Res) (bs : Option BalanceRes)
    (cf : Option CashFlowRes) (wk : Option Week52Res) : Rec :=
  applyIfFulfilled (applyIfFulfilled (applyIfFulfilled (applyIfFulfilled
    (applyIfFulfilled (applyIfFulfilled (baseRecord tk now)
      (ti.map tickerInfoPatch))
      (ra.map ratiosPatch))
      (inc.map incomePatchV2))
      (bs.map balancePatch))
      (cf.map cashFlowPatch))
      (wk.map week52Patch)

/-- The `updateData` object of the second-revision `fetchFromPolygon`
(lines 927-997): the first-revision fields plus 52-week extrema and
YoY growth. -/
def updFieldV2 (now : Int) (d : Rec) : Rec := fun f =>
  match f with
  | .week52High => d .fiftyTwoWeekHigh
  | .week52Low => d .fiftyTwoWeekLow
  | .revenueGrowth => d .revenueGrowth
  | .earningsGrowth => d .earningsGrowth
  | _ => updFieldV1 now d f

/-- Effects of the second-revision `fetchFromPolygon`
(lines 877-1017). -/
structure FetchV2Out where
  result : Option Rec
  newRow : Option Rec
  cacheWrite : Option (Int × Rec)
  upstreamCalled : Bool

/-- Second-revision `FundamentalsService.fetchFromPolygon`
(src/src/services/fundamentalsService.ts, lines 877-1017). -/
def fetchFromPolygonV2 (tk : String) (now : Int) (prior : Option Rec)
    (ti : Option TickerInfoRes) (ra : Option RatiosRes) (inc : Option IncomeV2Res)
    (bs : Option BalanceRes) (cf : Option CashFlowRes) (wk : Option Week52Res)
    (upsertOk : Bool) : FetchV2Out :=
  let assembled := assembleV2 tk now ti ra inc bs cf wk
  if upsertOk then
    { result := some assembled
      newRow := some (dbApplyUpsert prior tk (updFieldV2 now assembled))
      cacheWrite := some (CACHE_TTL_FUNDAMENTALS, assembled)
      upstreamCalled := true }
  else
    { result := none
      newRow := none
      cacheWrite := none
      upstreamCalled := true }

/-- Stored row timestamp (`dbFundamentals.updatedAt.getTime()`). -/
def updatedAtOf (row : Rec) : Int :=
  match row .updatedAtF with
  | some (.i t) => t
  | _ => 0

/-- Observable outcome of one `getFundamentals` call. -/
structure GetFundOut where
  result : Option Rec
  upstreamCalled : Bool
  cacheWrites : List (Int × Rec)
  clearedCache : Bool

/-- Second-revision `FundamentalsService.getFundamentals`
(src/src/services/fundamentalsService.ts, lines 813-857):

1. Redis hit: an incomplete record forces `clearCache` (deleting both
   the cache entry and the row) followed by `fetchFromPolygon`; a
   complete record is returned directly.
2. Redis miss: a stored row younger than `UPDATE_THRESHOLD.FUNDAMENTALS`
   is converted and, when complete, cached with
   `CACHE_TTL.FUNDAMENTALS` and returned; an incomplete fresh row
   forces clear-and-refetch.
3. Otherwise `fetchFromPolygon`.

`cacheEntry` is the raw Redis state under `fundamentals:{T}`; `dbRow`
the stored row; the sub-fetch arguments describe the upstream responses
the refetch would see.  After `clearCache` the upsert inside
`fetchFromPolygon` sees no prior row; the stale path passes the
still-present row. -/
def getFundamentalsV2 (tk : String) (cacheEntry : Option (Option Rec))
    (dbRow : Option Rec) (now : Int) (ti : Option TickerInfoRes)
    (ra : Option RatiosRes) (inc : Option IncomeV2Res) (bs : Option BalanceRes)
    (cf : Option CashFlowRes) (wk : Option Week52Res) (upsertOk : Bool) :
    GetFundOut :=
  match getCachedEntry cacheEntry with
  | some cached =>
    if isIncompleteData cached then
      let fo := fetchFromPolygonV2 tk now none ti ra inc bs cf wk upsertOk
      { result := fo.result
        upstreamCalled := true
        cacheWrites := fo.cacheWrite.toList
        clearedCache := true }
    else
      { result := some cached, upstreamCalled := false, cacheWrites := [],
        clearedCache := false }
  | none =>
    match dbRow with
    | some row =>
      if now - updatedAtOf row < UPDATE_THRESHOLD_FUNDAMENTALS then
        let fundamentalsData := dbToFundamentalsData row
        if isIncompleteData fundamentalsData then
          let fo := fetchFromPolygonV2 tk now none ti ra inc bs cf wk upsertOk
          { result := fo.result
            upstreamCalled := true
            cacheWrites := fo.cacheWrite.toList
            clearedCache := true }
        else
          { result := some fundamentalsData
            upstreamCalled := false
            cacheWrites := [(CACHE_TTL_FUNDAMENTALS, fundamentalsData)]
            clearedCache := false }
      else
        let fo := fetchFromPolygonV2 tk now (some row) ti ra inc bs cf wk upsertOk
        { result := fo.result
          upstreamCalled := true
          cacheWrites := fo.cacheWrite.toList
          clearedCache := false }
    | none =>
      let fo := fetchFromPolygonV2 tk now none ti ra inc bs cf wk upsertOk
      { result := fo.result
        upstreamCalled := true
        cacheWrites := fo.cacheWrite.toList
        clearedCache := false }

/-! ### MarketCapService, smart-fetch revision
(src/src/routes/news.ts, lines 269-921: the service revision that
seeds from the existing row and only fetches missing categories) -/

/-- `MarketCapData` (src/src/routes/news.ts, lines 303-317). -/
structure MCData where
  ticker : String
  marketCap : ℚ
  week52High : Option ℚ
  week52Low : Option ℚ
  currentPrice : Option ℚ
  sharesOutstanding : Option ℚ
  sector : Option String
  industry : Option String
  description : Option String
  website : Option String
  exchange : Option String
  companyName : Option String
  updatedAt : Int
deriving DecidableEq

/-- `/v3/reference/tickers/{t}` result fields read by the smart
`fetchFromPolygon` (lines 573-588). -/
structure TickerDetailsRes where
  name : Option String
  market_cap : Option ℚ
  last_updated_utc : Option String
  close_price : Option ℚ
  share_class_shares_outstanding : Option ℚ
  weighted_shares_outstanding : Option ℚ
  sic_description : Option String
  primary_exchange : Option String
  description : Option String
  homepage_url : Option String
deriving DecidableEq

/-- Outcome of the awaited ticker-details request: fulfilled with a
valid payload, fulfilled with a non-OK/empty payload, or rejected with
an HTTP status (the only awaited promise without an inner catch, so the
only one that can reach the outer catch block). -/
inductive TickerFetch where
  | ok (r : TickerDetailsRes)
  | badPayload
  | httpErr (status : Option Int)
deriving DecidableEq

/-- One daily aggregate bar (fields `h`, `l`, `c`). -/
structure AggBar where
  h : ℚ
  l : ℚ
  c : ℚ
deriving DecidableEq

/-- Income-statement first result fields read by the smart service
(lines 618-625) — note the different net-income key from the
fundamentals service. -/
structure IncomeSmartRes where
  revenue : Option ℚ
  consolidated_net_income_loss : Option ℚ
  operating_income : Option ℚ
  gross_profit : Option ℚ
  ebitda : Option ℚ
  diluted_earnings_per_share : Option ℚ
deriving DecidableEq

/-- Cash-flow first result fields read by the smart service
(lines 639-643). -/
structure CashFlowSmartRes where
  net_cash_from_operating_activities : Option ℚ
  purchase_of_property_plant_and_equipment : Option ℚ
  net_cash_from_investing_activities : Option ℚ
  net_cash_from_financing_activities : Option ℚ
deriving DecidableEq

/-- Balance-sheet first result fields read by the smart service
(lines 666-673). -/
structure BalanceSmartRes where
  total_assets : Option ℚ
  total_current_assets : Option ℚ
  total_liabilities : Option ℚ
  total_current_liabilities : Option ℚ
  total_equity : Option ℚ
  cash_and_equivalents : Option ℚ
  long_term_debt_and_capital_lease_obligations : Option ℚ
deriving DecidableEq

/-- Ratios first result fields read by the smart service
(lines 700-729). -/
structure RatiosSmartRes where
  price_to_earnings : Option ℚ
  price_to_book : Option ℚ
  price_to_sales : Option ℚ
  price_to_cash_flow : Option ℚ
  price_to_free_cash_flow : Option ℚ
  enterprise_value : Option ℚ
  ev_to_sales : Option ℚ
  ev_to_ebitda : Option ℚ
  return_on_assets : Option ℚ
  return_on_equity : Option ℚ
  debt_to_equity : Option ℚ
  current : Option ℚ
  quick : Option ℚ
  cash : Option ℚ
  dividend_yield : Option ℚ
  average_volume : Option ℚ
  free_cash_flow : Option ℚ
deriving DecidableEq

/-- The upstream responses a smart `fetchFromPolygon` call would see.
For each category with an inner `.catch(... => null)`, `none` stands
for a rejected request, a non-OK payload or an empty result list. -/
structure SmartWorld where
  tickerFetch : TickerFetch
  aggRes : Option (List AggBar)
  incomeRes : Option IncomeSmartRes
  cashFlowRes : Option CashFlowSmartRes
  balanceRes : Option BalanceSmartRes
  ratiosRes : Option RatiosSmartRes
deriving DecidableEq

/-- `existingData?.f ? Number(existingData.f) : undefined` — the seed a
section variable takes from the prior row. -/
def seedQ (prior : Option Rec) (f : FField) : Option ℚ :=
  match prior with
  | none => none
  | some row => if truthyV (row f) then qOfV (row f) else none

/-- The margin recomputation block of the smart `fetchFromPolygon`
(src/src/routes/news.ts, lines 735-751): margins are seeded from the
existing row and recomputed — as percentages, `(x / revenue) * 100` —
only when the income statement was fetched this cycle
(`needsIncomeStatement`) and the fresh revenue is truthy and positive;
a numerator that is `undefined` leaves that margin at its seed. -/
def smartMargins (prior : Option Rec) (needsIncomeStatement : Bool)
    (revenue netIncome operatingIncome grossProfit : Option ℚ) :
    Option ℚ × Option ℚ × Option ℚ :=
  let profitMargin0 := seedQ prior .profitMargin
  let operatingMargin0 := seedQ prior .operatingMargin
  let grossMargin0 := seedQ prior .grossMargin
  if needsIncomeStatement && qTruthy revenue && revenue.getD 0 > 0 then
    ( match netIncome with
      | some ni => some (ni / revenue.getD 0 * 100)
      | none => profitMargin0
    , match operatingIncome with
      | some oi => some (oi / revenue.getD 0 * 100)
      | none => operatingMargin0
    , match grossProfit with
      | some gp => some (gp / revenue.getD 0 * 100)
      | none => grossMargin0 )
  else (profitMargin0, operatingMargin0, grossMargin0)

/-- 52-week section variables of the smart `fetchFromPolygon`
(src/src/routes/news.ts, lines 590-605): seeded from the existing row,
overwritten when a nonempty bar list was fetched; `snapshotPrice` is
set only in that case (to the close of the last bar). -/
structure W52Vars where
  week52High : Option ℚ
  week52Low : Option ℚ
  snapshotPrice : Option ℚ

def smartW52Vars (prior : Option Rec) (needs52WeekData : Bool)
    (res : Option (List AggBar)) : W52Vars :=
  let seedHigh := seedQ prior .week52High
  let seedLow := seedQ prior .week52Low
  match (if needs52WeekData then res else none) with
  | some bars =>
    if bars.length > 0 then
      { week52High := some (((bars.map AggBar.h).max?).getD 0)
        week52Low := some (((bars.map AggBar.l).min?).getD 0)
        snapshotPrice := (bars.map AggBar.c).getLast? }
    else { week52High := seedHigh, week52Low := seedLow, snapshotPrice := none }
  | none => { week52High := seedHigh, week52Low := seedLow, snapshotPrice := none }

/-- Income-statement section variables (lines 607-627). -/
structure IncomeVars where
  revenue : Option ℚ
  netIncome : Option ℚ
  operatingIncome : Option ℚ
  grossProfit : Option ℚ
  ebitda : Option ℚ
  earningsPerShare : Option ℚ

def smartIncomeVars (prior : Option Rec) (needsIncomeStatement : Bool)
    (res : Option IncomeSmartRes) : IncomeVars :=
  match (if needsIncomeStatement then res else none) with
  | some inc =>
    { revenue := inc.revenue
      netIncome := inc.consolidated_net_income_loss
      operatingIncome := inc.operating_income
      grossProfit := inc.gross_profit
      ebitda := inc.ebitda
      earningsPerShare := inc.diluted_earnings_per_share }
  | none =>
    { revenue := seedQ prior .revenue
      netIncome := seedQ prior .netIncome
      operatingIncome := seedQ prior .operatingIncome
      grossProfit := seedQ prior .grossProfit
      ebitda := seedQ prior .ebitda
      earningsPerShare := seedQ prior .earningsPerShare }

/-- Cash-flow section variables (lines 629-652): `capex` takes the
absolute value behind a truthiness guard, and free cash flow is
recomputed when both operands are defined (`!== undefined`), falling
back to the stored `freeCashflow` column otherwise. -/
structure CashFlowVars where
  operatingCashFlow : Option ℚ
  capex : Option ℚ
  investingCashFlow : Option ℚ
  financingCashFlow : Option ℚ
  freeCashFlow : Option ℚ

def smartCashFlowVars (prior : Option Rec) (needsCashFlow : Bool)
    (res : Option CashFlowSmartRes) : CashFlowVars :=
  match (if needsCashFlow then res else none) with
  | some c =>
    let operatingCashFlow := c.net_cash_from_operating_activities
    let capex := if qTruthy c.purchase_of_property_plant_and_equipment then
        some |c.purchase_of_property_plant_and_equipment.getD 0| else none
    let freeCashFlow :=
      if operatingCashFlow.isSome && capex.isSome then
        some (operatingCashFlow.getD 0 - capex.getD 0)
      else seedQ prior .freeCashflowRow
    { operatingCashFlow := operatingCashFlow
      capex := capex
      investingCashFlow := c.net_cash_from_investing_activities
      financingCashFlow := c.net_cash_from_financing_activities
      freeCashFlow := freeCashFlow }
  | none =>
    { operatingCashFlow := seedQ prior .operatingCashFlow
      capex := seedQ prior .capex
      investingCashFlow := seedQ prior .investingCashFlow
      financingCashFlow := seedQ prior .financingCashFlow
      freeCashFlow := seedQ prior .freeCashflowRow }

/-- Balance-sheet section variables (lines 654-677). -/
structure BalanceVars where
  totalAssets : Option ℚ
  currentAssets : Option ℚ
  totalLiabilities : Option ℚ
  currentLiabilities : Option ℚ
  totalEquity : Option ℚ
  cash : Option ℚ
  longTermDebt : Option ℚ

def smartBalanceVars (prior : Option Rec) (needsBalanceSheet : Bool)
    (res : Option BalanceSmartRes) : BalanceVars :=
  match (if needsBalanceSheet then res else none) with
  | some b =>
    { totalAssets := b.total_assets
      currentAssets := b.total_current_assets
      totalLiabilities := b.total_liabilities
      currentLiabilities := b.total_current_liabilities
      totalEquity := b.total_equity
      cash := b.cash_and_equivalents
      longTermDebt := b.long_term_debt_and_capital_lease_obligations }
  | none =>
    { totalAssets := seedQ prior .totalAssets
      currentAssets := seedQ prior .currentAssets
      totalLiabilities := seedQ prior .totalLiabilities
      currentLiabilities := seedQ prior .currentLiabilities
      totalEquity := seedQ prior .totalEquity
      cash := seedQ prior .cash
      longTermDebt := seedQ prior .longTermDebt }

/-- Ratios section variables (lines 679-733): the fetched values
overwrite the seeds, and a defined `free_cash_flow` overrides the
cash-flow section's value. -/
structure RatiosVars where
  priceToEarnings : Option ℚ
  priceToBook : Option ℚ
  priceToSales : Option ℚ
  priceToCashFlow : Option ℚ
  priceToFreeCashFlow : Option ℚ
  enterpriseValue : Option ℚ
  evToSales : Option ℚ
  evToEbitda : Option ℚ
  returnOnAssets : Option ℚ
  returnOnEquity : Option ℚ
  debtToEquity : Option ℚ
  currentRatio : Option ℚ
  quickRatio : Option ℚ
  cashRatio : Option ℚ
  dividendYield : Option ℚ
  averageVolume : Option ℚ
  freeCashFlow : Option ℚ

def smartRatiosVars (prior : Option Rec) (needsRatios : Bool)
    (res : Option RatiosSmartRes) (freeCashFlowCF : Option ℚ) : RatiosVars :=
  match (if needsRatios then res else none) with
  | some r =>
    { priceToEarnings := r.price_to_earnings
      priceToBook := r.price_to_book
      priceToSales := r.price_to_sales
      priceToCashFlow := r.price_to_cash_flow
      priceToFreeCashFlow := r.price_to_free_cash_flow
      enterpriseValue := r.enterprise_value
      evToSales := r.ev_to_sales
      evToEbitda := r.ev_to_ebitda
      returnOnAssets := r.return_on_assets
      returnOnEquity := r.return_on_equity
      debtToEquity := r.debt_to_equity
      currentRatio := r.current
      quickRatio := r.quick
      cashRatio := r.cash
      dividendYield := r.dividend_yield
      averageVolume := r.average_volume
      freeCashFlow :=
        match r.free_cash_flow with
        | some v => some v
        | none => freeCashFlowCF }
  | none =>
    { priceToEarnings := seedQ prior .priceToEarnings
      priceToBook := seedQ prior .priceToBook
      priceToSales := seedQ prior .priceToSales
      priceToCashFlow := seedQ prior .priceToCashFlow
      priceToFreeCashFlow := seedQ prior .priceToFreeCashFlow
      enterpriseValue := seedQ prior .enterpriseValue
      evToSales := seedQ prior .evToSales
      evToEbitda := seedQ prior .evToEbitda
      returnOnAssets := seedQ prior .returnOnAssets
      returnOnEquity := seedQ prior .returnOnEquity
      debtToEquity := seedQ prior .debtToEquity
      currentRatio := seedQ prior .currentRatio
      quickRatio := seedQ prior .quickRatio
      cashRatio := seedQ prior .cashRatio
      dividendYield := seedQ prior .dividendYield
      averageVolume := seedQ prior .averageVolume
      freeCashFlow := freeCashFlowCF }

/-- Effects of one smart `fetchFromPolygon` call: the returned record,
the Redis write under `marketcap:{T}` (value `none` = a cached JSON
`null`), and the fire-and-forget upsert data. -/
structure SmartFetchOut where
  result : Option MCData
  cacheWrite : Option (Int × Option MCData)
  upsertFields : Option Rec
  upstreamCalled : Bool

/-- Smart `MarketCapService.fetchFromPolygon`
(src/src/routes/news.ts, lines 418-917).  A rejected ticker-details
request with HTTP 404 caches `null` under the market-cap key with
`CACHE_TTL.MARKET_CAP` and returns `null`; any other failure returns
`null` without caching.  On success every section overwrites its seed
only when that category was actually fetched and parsed. -/
def fetchFromPolygonSmart (tk : String) (now : Int) (prior : Option Rec)
    (w : SmartWorld) : SmartFetchOut :=
  let needs52WeekData := prior.isNone || !(truthyV ((prior.getD (fun _ => none)) .week52High))
      || !(truthyV ((prior.getD (fun _ => none)) .week52Low))
  let needsIncomeStatement := prior.isNone || !(truthyV ((prior.getD (fun _ => none)) .revenue))
  let needsCashFlow := prior.isNone || !(truthyV ((prior.getD (fun _ => none)) .operatingCashFlow))
  let needsBalanceSheet := prior.isNone || !(truthyV ((prior.getD (fun _ => none)) .totalAssets))
  let needsRatios := prior.isNone || !(truthyV ((prior.getD (fun _ => none)) .priceToEarnings))
  match w.tickerFetch with
  | .httpErr status =>
    if status = some 404 then
      { result := none
        cacheWrite := some (CACHE_TTL_MARKET_CAP, none)
        upsertFields := none
        upstreamCalled := true }
    else
      { result := none, cacheWrite := none, upsertFields := none,
        upstreamCalled := true }
  | .badPayload =>
    { result := none, cacheWrite := none, upsertFields := none,
      upstreamCalled := true }
  | .ok td =>
    if !(qTruthy td.market_cap) then
      { result := none, cacheWrite := none, upsertFields := none,
        upstreamCalled := true }
    else
      let marketCap := td.market_cap.getD 0
      let companyName := td.name
      let currentPrice := if sTruthy td.last_updated_utc then none else td.close_price
      let sharesOutstanding := jsOrQ td.share_class_shares_outstanding
        td.weighted_shares_outstanding
      let sector := td.sic_description
      let industry := td.primary_exchange
      let descr := td.description
      let website := td.homepage_url
      let exchange := td.primary_exchange
      let wv := smartW52Vars prior needs52WeekData w.aggRes
      let iv := smartIncomeVars prior needsIncomeStatement w.incomeRes
      let cv := smartCashFlowVars prior needsCashFlow w.cashFlowRes
      let bv := smartBalanceVars prior needsBalanceSheet w.balanceRes
      let rv := smartRatiosVars prior needsRatios w.ratiosRes cv.freeCashFlow
      -- margins (lines 735-751)
      let margins := smartMargins prior needsIncomeStatement iv.revenue
        iv.netIncome iv.operatingIncome iv.grossProfit
      let mcd : MCData :=
        { ticker := jsToUpper tk
          marketCap := marketCap
          week52High := wv.week52High
          week52Low := wv.week52Low
          currentPrice := jsOrQ wv.snapshotPrice currentPrice
          sharesOutstanding := sharesOutstanding
          sector := sector
          industry := industry
          description := descr
          website := website
          exchange := exchange
          companyName := companyName
          updatedAt := now }
      -- upsert update branch (lines 770-828); skipped fields are `none`
      let upd : Rec := fun f =>
        match f with
        | .marketCap => some (.q marketCap)
        | .week52High => wv.week52High.map .q
        | .week52Low => wv.week52Low.map .q
        | .currentPrice => (jsOrQ wv.snapshotPrice currentPrice).map .q
        | .sharesOutstanding => sharesOutstanding.map .q
        | .sector => sector.map .s
        | .industry => industry.map .s
        | .description => descr.map .s
        | .website => website.map .s
        | .exchange => exchange.map .s
        | .companyName => companyName.map .s
        | .averageVolume => rv.averageVolume.map .q
        | .revenue => iv.revenue.map .q
        | .netIncome => iv.netIncome.map .q
        | .operatingIncome => iv.operatingIncome.map .q
        | .grossProfit => iv.grossProfit.map .q
        | .ebitda => iv.ebitda.map .q
        | .earningsPerShare => iv.earningsPerShare.map .q
        | .operatingCashFlow => cv.operatingCashFlow.map .q
        | .investingCashFlow => cv.investingCashFlow.map .q
        | .financingCashFlow => cv.financingCashFlow.map .q
        | .capex => cv.capex.map .q
        | .freeCashflowRow => rv.freeCashFlow.map .q
        | .totalAssets => bv.totalAssets.map .q
        | .currentAssets => bv.currentAssets.map .q
        | .totalLiabilities => bv.totalLiabilities.map .q
        | .currentLiabilities => bv.currentLiabilities.map .q
        | .totalEquity => bv.totalEquity.map .q
        | .cash => bv.cash.map .q
        | .longTermDebt => bv.longTermDebt.map .q
        | .priceToEarnings => rv.priceToEarnings.map .q
        | .priceToBook => rv.priceToBook.map .q
        | .priceToSales => rv.priceToSales.map .q
        | .priceToCashFlow => rv.priceToCashFlow.map .q
        | .priceToFreeCashFlow => rv.priceToFreeCashFlow.map .q
        | .enterpriseValue => rv.enterpriseValue.map .q
        | .evToSales => rv.evToSales.map .q
        | .evToEbitda => rv.evToEbitda.map .q
        | .returnOnAssets => rv.returnOnAssets.map .q
        | .returnOnEquity => rv.returnOnEquity.map .q
        | .profitMargin => margins.1.map .q
        | .operatingMargin => margins.2.1.map .q
        | .grossMargin => margins.2.2.map .q
        | .debtToEquity => rv.debtToEquity.map .q
        | .currentRatio => rv.currentRatio.map .q
        | .quickRatio => rv.quickRatio.map .q
        | .cashRatio => rv.cashRatio.map .q
        | .dividendYield => rv.dividendYield.map .q
        | .updatedAtF => some (.i now)
        | _ => none
      { result := some mcd
        cacheWrite := some (CACHE_TTL_FUNDAMENTALS, some mcd)
        upsertFields := some upd
        upstreamCalled := true }

/-- Observable outcome of one smart `getMarketCap` call. -/
structure GetMCOut where
  result : Option MCData
  fromCache : Bool
  cacheWrite : Option (Int × Option MCData)
  upstreamCalled : Bool

/-- The record the DB-hit branch of `getMarketCap` builds from a fresh
row (src/src/routes/news.ts, lines 343-357). -/
def mcDataFromRow (row : Rec) : MCData :=
  { ticker := (strOfV (row .ticker)).getD ""
    marketCap := (qOfV (row .marketCap)).getD 0
    week52High := if truthyV (row .week52High) then qOfV (row .week52High) else none
    week52Low := if truthyV (row .week52Low) then qOfV (row .week52Low) else none
    currentPrice := if truthyV (row .currentPrice) then qOfV (row .currentPrice) else none
    sharesOutstanding :=
      if truthyV (row .sharesOutstanding) then qOfV (row .sharesOutstanding) else none
    sector := if sTruthy (strOfV (row .sector)) then strOfV (row .sector) else none
    industry := if sTruthy (strOfV (row .industry)) then strOfV (row .industry) else none
    description :=
      if sTruthy (strOfV (row .description)) then strOfV (row .description) else none
    website := if sTruthy (strOfV (row .website)) then strOfV (row .website) else none
    exchange := if sTruthy (strOfV (row .exchange)) then strOfV (row .exchange) else none
    companyName := strOfV (row .companyName)
    updatedAt := updatedAtOf row }

/-- Smart `MarketCapService.getMarketCap`
(src/src/routes/news.ts, lines 323-369):

1. A truthy Redis value is returned directly — but a cached JSON `null`
   parses back to `null`, fails the `if (cached)` test and is treated
   as a miss.
2. A stored row with a truthy market cap younger than
   `UPDATE_THRESHOLD.FUNDAMENTALS` is converted, cached and returned.
3. Otherwise `fetchFromPolygon(ticker, dbData)` — the row (possibly
   stale or without market cap) is passed along as the seed. -/
def getMarketCapSmart (tk : String) (cacheEntry : Option (Option MCData))
    (dbRow : Option Rec) (now : Int) (w : SmartWorld) : GetMCOut :=
  match getCachedEntry cacheEntry with
  | some cached =>
    { result := some cached, fromCache := true, cacheWrite := none,
      upstreamCalled := false }
  | none =>
    let fallthrough : GetMCOut :=
      let fo := fetchFromPolygonSmart tk now dbRow w
      { result := fo.result, fromCache := false, cacheWrite := fo.cacheWrite,
        upstreamCalled := fo.upstreamCalled }
    match dbRow with
    | some row =>
      if truthyV (row .marketCap) then
        if now - updatedAtOf row < UPDATE_THRESHOLD_FUNDAMENTALS then
          let mcd := mcDataFromRow row
          { result := some mcd, fromCache := false,
            cacheWrite := some (CACHE_TTL_FUNDAMENTALS, some mcd),
            upstreamCalled := false }
        else fallthrough
      else fallthrough
    | none => fallthrough

/-! ### LogoService (src/src/services/logoService.ts, lines 1-144) -/

/-- `LogoData` (src/src/services/logoService.ts, lines 13-19). -/
structure LogoData where
  ticker : String
  iconUrl : Option String
  logoUrl : Option String
  companyName : String
  exchange : Option String
deriving DecidableEq

/-- A `logos` row (prisma `Logo` model; the columns `getLogo` reads). -/
structure LogoRow where
  ticker : String
  iconUrl : Option String
  logoUrl : Option String
  companyName : String
  exchange : Option String
deriving DecidableEq

/-- `/v3/reference/tickers/{t}` fields read by `getLogo`
(lines 66-84). -/
structure LogoRes where
  icon_url : Option String
  logo_url : Option String
  name : Option String
  market : Option String
deriving DecidableEq

/-- Outcome of the logo upstream request. -/
inductive LogoFetch where
  | ok (r : LogoRes)
  | badPayload
  | err
deriving DecidableEq

/-- `CACHE_TTL.LOGO` from src/src/utils/redis.ts (line 35) — the TTL
`logoService` actually imports (24 hours, not the 30 days of
constants.ts). -/
def REDIS_CACHE_TTL_LOGO : Int := 24 * 60 * 60

/-- JS `a || b` on optional strings. -/
def jsOrS (a b : Option String) : Option String :=
  if sTruthy a then a else b

/-- Observable outcome of one `getLogo` call. -/
structure GetLogoOut where
  result : Option LogoData
  fromCache : Bool
  cacheWrites : List (Int × LogoData)
  upstreamCalled : Bool

/-- `LogoService.getLogo` (src/src/services/logoService.ts,
lines 26-114): Redis, then the `logos` table, then the upstream
ticker-details call whose branding URLs get the API key appended.
`apiKey` is the `POLYGON_API_KEY` environment value. -/
def getLogoM (tk : String) (apiKey : String)
    (cacheEntry : Option (Option LogoData)) (dbRow : Option LogoRow)
    (up : LogoFetch) : GetLogoOut :=
  match getCachedEntry cacheEntry with
  | some cached =>
    { result := some cached, fromCache := true, cacheWrites := [],
      upstreamCalled := false }
  | none =>
    match dbRow with
    | some row =>
      let logoData : LogoData :=
        { ticker := row.ticker, iconUrl := row.iconUrl, logoUrl := row.logoUrl
          companyName := row.companyName, exchange := row.exchange }
      { result := some logoData, fromCache := false,
        cacheWrites := [(REDIS_CACHE_TTL_LOGO, logoData)], upstreamCalled := false }
    | none =>
      match up with
      | .ok res =>
        let iconUrl0 := jsOrS res.icon_url res.logo_url
        let logoUrl0 := res.logo_url
        let iconUrl := iconUrl0.map (fun u => u ++ "?apiKey=" ++ apiKey)
        let logoUrl := logoUrl0.map (fun u => u ++ "?apiKey=" ++ apiKey)
        let logoData : LogoData :=
          { ticker := tk, iconUrl := iconUrl, logoUrl := logoUrl
            companyName := (jsOrS res.name (some tk)).getD tk
            exchange := res.market }
        { result := some logoData, fromCache := false,
          cacheWrites := [(REDIS_CACHE_TTL_LOGO, logoData)], upstreamCalled := true }
      | .badPayload =>
        { result := none, fromCache := false, cacheWrites := [],
          upstreamCalled := true }
      | .err =>
        { result := none, fromCache := false, cacheWrites := [],
          upstreamCalled := true }

/-- `LogoService.refreshLogo` (src/src/services/logoService.ts,
lines 131-141): attempts to clear the cache entry with
`setCached(cacheKey, null, 0)` — a `SETEX` with expiry `0`, which Redis
rejects and `setCached` swallows — then re-runs `getLogo` against the
resulting cache state. -/
def refreshLogoM (tk : String) (apiKey : String)
    (cacheEntry : Option (Option LogoData)) (dbRow : Option LogoRow)
    (up : LogoFetch) : GetLogoOut :=
  let entryAfterClear := setCachedEntry cacheEntry none 0
  getLogoM tk apiKey entryAfterClear dbRow up

/-! ### EarningsService (src/unnamed/part_015) -/

/-- `EarningsEvent` (src/unnamed/part_015, lines 20-38). -/
structure EEvent where
  id : String
  ticker : String
  date : Int
  time : Option String
  importance : Option Int
  eps_actual : Option ℚ
  eps_estimate : Option ℚ
  eps_surprise : Option ℚ
  eps_surprise_percent : Option ℚ
  revenue_actual : Option ℚ
  revenue_estimate : Option ℚ
  revenue_surprise : Option ℚ
  revenue_surprise_percent : Option ℚ
  name : String
  currency : Option String
  period : Option String
  period_year : Option Int
deriving DecidableEq

/-- An `earnings` row (the columns the service reads and writes;
`importance` is a non-nullable SMALLINT defaulting to 0). -/
structure DbEarning where
  id : String
  ticker : String
  date : Int
  time : Option String
  importance : Int
  epsActual : Option ℚ
  epsEstimate : Option ℚ
  epsSurprise : Option ℚ
  epsSurprisePercent : Option ℚ
  revenueActual : Option ℚ
  revenueEstimate : Option ℚ
  revenueSurprise : Option ℚ
  revenueSurprisePercent : Option ℚ
  companyName : String
  currency : Option String
  period : Option String
  periodYear : Option Int
deriving DecidableEq

/-- The converter guard `x ? Number(x) : undefined` on rationals. -/
def qGuard (a : Option ℚ) : Option ℚ :=
  if qTruthy a then a else none

/-- `EarningsService.dbToEarningsEvent` (src/unnamed/part_015,
lines 574-595; identically at src/src/services/earningsService.ts,
lines 374-395): every Decimal/BigInt column goes through the
`x ? Number(x) : undefined` guard, while `time`, `importance`,
`currency`, `period` and `periodYear` are copied as-is. -/
def dbToEarningsEvent (db : DbEarning) : EEvent :=
  { id := db.id
    ticker := db.ticker
    date := db.date
    time := db.time
    importance := some db.importance
    eps_actual := qGuard db.epsActual
    eps_estimate := qGuard db.epsEstimate
    eps_surprise := qGuard db.epsSurprise
    eps_surprise_percent := qGuard db.epsSurprisePercent
    revenue_actual := qGuard db.revenueActual
    revenue_estimate := qGuard db.revenueEstimate
    revenue_surprise := qGuard db.revenueSurprise
    revenue_surprise_percent := qGuard db.revenueSurprisePercent
    name := db.companyName
    currency := db.currency
    period := db.period
    period_year := db.periodYear }

/-- `EarningsQuery` (src/unnamed/part_015, lines 40-45). -/
structure EQuery where
  dateFrom : Option Int
  dateTo : Option Int
  tickers : Option String
  importance : Option Int
deriving DecidableEq

/-- The Prisma `where` filter built by `fetchFromDatabase`
(src/unnamed/part_015, lines 111-130). -/
def matchesQuery (q : EQuery) (r : DbEarning) : Bool :=
  (match q.dateFrom with | some d => decide (d ≤ r.date) | none => true) &&
  (match q.dateTo with | some d => decide (r.date ≤ d) | none => true) &&
  (match q.tickers with
   | some ts => ((jsSplit ts ",").map (fun t => jsToUpper (jsTrim t))).contains r.ticker
   | none => true) &&
  (match q.importance with | some i => decide (i ≤ r.importance) | none => true)

/-- `EarningsService.fetchFromDatabase` (src/unnamed/part_015,
lines 111-137): filter, order by date ascending, convert. -/
def fetchFromDatabase (q : EQuery) (rows : List DbEarning) : List EEvent :=
  (((rows.filter (matchesQuery q)).mergeSort
      (fun a b => decide (a.date ≤ b.date))).map dbToEarningsEvent)

/-- Row returned by `getCachedMarketCaps`' Prisma query
(`select: { ticker, marketCap }`). -/
structure MCRow where
  ticker : String
  marketCap : Option ℚ
deriving DecidableEq

/-- `EarningsService.getCachedMarketCaps` (src/unnamed/part_015,
lines 355-378): a single `fundamentals` query for rows whose ticker is
in the (uppercased, deduplicated) set and whose market cap is not NULL,
keeping only rows with a truthy market cap.  Despite its name this
reads the Durable Store only — no Redis, no upstream call. -/
def getCachedMarketCaps (fundDB : List MCRow) (tickers : List String) :
    List (String × ℚ) :=
  let uniqueTickers := firstOccurrences (tickers.map jsToUpper)
  let dbResults := fundDB.filter
    (fun r => uniqueTickers.contains r.ticker && r.marketCap.isSome)
  dbResults.filterMap (fun r =>
    match r.marketCap with
    | some mc => if mc != 0 then some (r.ticker, mc) else none
    | none => none)

/-- `EarningsService.filterByMarketCap` (src/unnamed/part_015,
lines 316-350): drop events whose (uppercased) ticker has no entry in
the market-cap map, sort the survivors descending by market cap
(`(a, b) => mcB - mcA`, a stable sort), and report the dropped tickers
— the service spawns a fire-and-forget `fetchMissingMarketCaps` for
them.  Returns `(sorted survivors, dropped tickers)`. -/
def filterByMarketCap (fundDB : List MCRow) (earnings : List EEvent) :
    List EEvent × List String :=
  if earnings.isEmpty then (earnings, []) else
  let tickers := firstOccurrences (earnings.map EEvent.ticker)
  let marketCaps := getCachedMarketCaps fundDB tickers
  let mcOf : String → Option ℚ := fun t => marketCaps.lookup t
  let filteredOut := (earnings.filter
    (fun e => !(mcOf (jsToUpper e.ticker)).isSome)).map EEvent.ticker
  let filtered := earnings.filter (fun e => (mcOf (jsToUpper e.ticker)).isSome)
  let sorted := filtered.mergeSort
    (fun a b => decide ((mcOf (jsToUpper b.ticker)).getD 0 ≤ (mcOf (jsToUpper a.ticker)).getD 0))
  (sorted, filteredOut)

/-- Before-market predicate of `extractPrimaryEarnings`
(src/unnamed/part_015, lines 526-536): no time, an explicit pre-market
marker (`bmo`, `time-pre-market`, a string containing `before`), or a
clock time strictly before 09:30 (`parseInt` with NaN comparing
false). -/
def beforeOpenPred (time : Option String) : Bool :=
  match time with
  | none => true
  | some t =>
    if t == "bmo" || t == "time-pre-market" || strContains t "before" then true
    else if strContains t ":" then
      let hour := jsParseInt ((jsSplit t ":").headD "")
      let minutes := jsParseInt (((jsSplit t ":").getD 1 ""))
      jsLtInt hour 9 || (jsEqInt hour 9 && jsLtInt minutes 30)
    else false

/-- After-market predicate of `extractPrimaryEarnings`
(src/unnamed/part_015, lines 538-548): an explicit post-market marker
(`amc`, `time-after-hours`, a string containing `after`) or a clock
time at or after 16:00; events without a time are not after-market. -/
def afterClosePred (time : Option String) : Bool :=
  match time with
  | none => false
  | some t =>
    if t == "amc" || t == "time-after-hours" || strContains t "after" then true
    else if strContains t ":" then
      jsGeInt (jsParseInt ((jsSplit t ":").headD "")) 16
    else false

/-- `EarningsService.extractPrimaryEarnings` (src/unnamed/part_015,
lines 509-557): group by date (a JS `Map`, so dates appear in first
occurrence order and each group preserves the list order), then per
date take the first five before-market and the first five after-market
events. -/
def extractPrimaryEarnings (earnings : List EEvent) : List EEvent :=
  let dates := firstOccurrences (earnings.map EEvent.date)
  (dates.map (fun d =>
    let dayEarnings := earnings.filter (fun e => e.date = d)
    let beforeOpen := dayEarnings.filter (fun e => beforeOpenPred e.time)
    let afterClose := dayEarnings.filter (fun e => afterClosePred e.time)
    beforeOpen.take 5 ++ afterClose.take 5)).flatten

/-- The split performed by `EarningsService.getSecondaryEarnings`
(src/unnamed/part_015, lines 494-504) on the full event list it gets
from `getEarnings`: everything whose id was not selected as primary. -/
def secondaryOf (allEarnings : List EEvent) : List EEvent :=
  let primary := extractPrimaryEarnings allEarnings
  let primaryIds := primary.map EEvent.id
  allEarnings.filter (fun e => !(primaryIds.contains e.id))

/-- `EarningsService.createCacheKey` (src/unnamed/part_015,
lines 562-569). -/
def createCacheKey (q : EQuery) : String :=
  let parts := ["earnings"]
    ++ (match q.dateFrom with | some d => ["from:" ++ toString d] | none => [])
    ++ (match q.dateTo with | some d => ["to:" ++ toString d] | none => [])
    ++ (match q.tickers with | some t => ["tickers:" ++ t] | none => [])
    ++ (match q.importance with | some i => ["imp:" ++ toString i] | none => [])
  String.intercalate ":" parts

/-- The row written for an event by `storeInDatabase`
(src/unnamed/part_015, lines 256-301); `importance: earning.importance
|| 0`. -/
def eventToDbRow (e : EEvent) : DbEarning :=
  { id := e.id
    ticker := e.ticker
    date := e.date
    time := e.time
    importance := if iTruthy e.importance then e.importance.getD 0 else 0
    epsActual := e.eps_actual
    epsEstimate := e.eps_estimate
    epsSurprise := e.eps_surprise
    epsSurprisePercent := e.eps_surprise_percent
    revenueActual := e.revenue_actual
    revenueEstimate := e.revenue_estimate
    revenueSurprise := e.revenue_surprise
    revenueSurprisePercent := e.revenue_surprise_percent
    companyName := e.name
    currency := e.currency
    period := e.period
    periodYear := e.period_year }

/-- Upsert one row by primary key. -/
def upsertRow (rows : List DbEarning) (r : DbEarning) : List DbEarning :=
  if rows.any (fun x => x.id == r.id) then
    rows.map (fun x => if x.id == r.id then r else x)
  else rows ++ [r]

/-- `EarningsService.storeInDatabase` (src/unnamed/part_015,
lines 241-309): batched upserts of every fetched event (the batching
into transactions of 100 does not change the resulting table). -/
def storeInDatabase (rows : List DbEarning) (earnings : List EEvent) :
    List DbEarning :=
  earnings.foldl (fun acc e => upsertRow acc (eventToDbRow e)) rows

/-- Write-through on the earnings cache (`setCached` with a positive
TTL inserts, see `setCachedEntry`). -/
def cacheSet (c : List (String × List EEvent)) (k : String) (v : List EEvent)
    (ttl : Int) : List (String × List EEvent) :=
  if ttl > 0 then
    if c.any (fun p => p.1 == k) then
      c.map (fun p => if p.1 == k then (k, v) else p)
    else c ++ [(k, v)]
  else c

/-- System state visible to `getEarnings`: the earnings cache, the
`earnings` table and the `fundamentals` market-cap columns. -/
structure EState where
  earnCache : List (String × List EEvent)
  earnDB : List DbEarning
  fundDB : List MCRow
deriving DecidableEq

/-- Observable outcome of one `getEarnings` call. -/
structure GEOut where
  result : List EEvent
  state : EState
  redisRead : Bool
  dbRead : Bool
  upstreamCalled : Bool
  bgMarketCapTickers : List String
deriving DecidableEq

/-- `EarningsService.fetchFromPolygon` (src/unnamed/part_015,
lines 142-236), with the HTTP layer and field mapping as the external
boundary: `poly = none` models an error or a non-OK/absent payload
(return `[]`, nothing stored or cached); `poly = some evs` the mapped
result list, which is stored in the database (fire-and-forget) and —
for past queries only — cached *unfiltered* under the query key with
`CACHE_TTL.EARNINGS_HISTORICAL`. -/
def fetchFromPolygonE (q : EQuery) (today : Int) (poly : Option (List EEvent))
    (s : EState) : List EEvent × EState :=
  match poly with
  | none => ([], s)
  | some evs =>
    let s1 : EState := { s with earnDB := storeInDatabase s.earnDB evs }
    let isPastEarnings :=
      match q.dateTo with | some d => decide (d < today) | none => false
    let s2 := if isPastEarnings then
        { s1 with earnCache :=
            (cacheSet s1.earnCache (createCacheKey q) evs CACHE_TTL_EARNINGS_HISTORICAL) }
      else s1
    (evs, s2)

/-- `EarningsService.getEarnings` (src/unnamed/part_015, lines 51-106):

* `isPastEarnings` iff `dateTo` is present and strictly before the
  start of today.
* Past queries: Redis by query key (an array value, even empty, is a
  hit); then the database — a nonempty row set is filtered by market
  cap, cached (filtered) and returned; otherwise Polygon.
* Current/future queries: straight to Polygon, no Redis or database
  read.
* Every freshly computed list passes through `filterByMarketCap`; a
  Redis hit is returned as stored. -/
def getEarnings (q : EQuery) (today : Int) (poly : Option (List EEvent))
    (s : EState) : GEOut :=
  let isPastEarnings :=
    match q.dateTo with | some d => decide (d < today) | none => false
  let cacheKey := createCacheKey q
  if isPastEarnings then
    match s.earnCache.lookup cacheKey with
    | some cached =>
      { result := cached, state := s, redisRead := true, dbRead := false,
        upstreamCalled := false, bgMarketCapTickers := [] }
    | none =>
      let dbEarnings := fetchFromDatabase q s.earnDB
      if dbEarnings.length > 0 then
        let fr := filterByMarketCap s.fundDB dbEarnings
        { result := fr.1
          state := { s with earnCache :=
            (cacheSet s.earnCache cacheKey fr.1 CACHE_TTL_EARNINGS_HISTORICAL) }
          redisRead := true, dbRead := true, upstreamCalled := false,
          bgMarketCapTickers := fr.2 }
      else
        let pe := fetchFromPolygonE q today poly s
        let fr := filterByMarketCap pe.2.fundDB pe.1
        { result := fr.1, state := pe.2, redisRead := true, dbRead := true,
          upstreamCalled := true, bgMarketCapTickers := fr.2 }
  else
    let pe := fetchFromPolygonE q today poly s
    let fr := filterByMarketCap pe.2.fundDB pe.1
    { result := fr.1, state := pe.2, redisRead := false, dbRead := false,
      upstreamCalled := true, bgMarketCapTickers := fr.2 }

/-! ### Spec-side comparison predicates

These definitions follow the specification's wording, for comparison
with the definitions embedded from the source. -/

/-- The specification's completeness predicate (spec.md §4.1): a record
is incomplete iff any of exchange, sector, industry, market cap,
current price, revenue, operating cash flow is absent — seven fields,
without the total-assets check the source performs. -/
def specIncomplete (d : Rec) : Bool :=
  !(truthyV (d .exchange)) || !(truthyV (d .sector)) || !(truthyV (d .industry)) ||
  !(truthyV (d .marketCap)) || !(truthyV (d .currentPrice)) ||
  !(truthyV (d .revenue)) || !(truthyV (d .operatingCashFlow))

/-- An explicit pre-market marker per the spec wording. -/
def specPreMarketMarker (t : String) : Bool :=
  t == "bmo" || t == "time-pre-market" || strContains t "before"

/-- "a clock time before 09:30" under the source's parsing of clock
strings. -/
def specClockBefore930 (t : String) : Bool :=
  strContains t ":" &&
    (jsLtInt (jsParseInt ((jsSplit t ":").headD "")) 9 ||
     (jsEqInt (jsParseInt ((jsSplit t ":").headD "")) 9 &&
      jsLtInt (jsParseInt ((jsSplit t ":").getD 1 "")) 30))

/-- Spec-side before-market bucket membership: no time given, an
explicit pre-market marker, or a clock time before 09:30. -/
def specBeforeMarket (time : Option String) : Bool :=
  match time with
  | none => true
  | some t => specPreMarketMarker t || specClockBefore930 t

/-- An explicit post-market marker per the spec wording. -/
def specPostMarketMarker (t : String) : Bool :=
  t == "amc" || t == "time-after-hours" || strContains t "after"

/-- "a clock time at/after 16:00". -/
def specClockAtOrAfter1600 (t : String) : Bool :=
  strContains t ":" && jsGeInt (jsParseInt ((jsSplit t ":").headD "")) 16

/-- Spec-side after-market bucket membership: an explicit post-market
marker or a clock time at or after 16:00. -/
def specAfterMarket (time : Option String) : Bool :=
  match time with
  | none => false
  | some t => specPostMarketMarker t || specClockAtOrAfter1600 t

/-! ### Concrete scenario data used by the counterexamples and
witnesses -/

/-- A prior stored fundamentals row with a known company name and
sector. -/
def priorRowC1 : Rec := fun f =>
  match f with
  | .ticker => some (.s "AAPL")
  | .companyName => some (.s "Apple Inc.")
  | .sector => some (.s "Technology")
  | .revenue => some (.q 391000000000)
  | .updatedAtF => some (.i 0)
  | _ => none

/-- A record with all seven spec-listed completeness fields present
but no total assets. -/
def recC2 : Rec := fun f =>
  match f with
  | .ticker => some (.s "ZED")
  | .exchange => some (.s "XNAS")
  | .sector => some (.s "Software")
  | .industry => some (.s "Software")
  | .marketCap => some (.q 5000000)
  | .currentPrice => some (.q 10)
  | .revenue => some (.q 700000)
  | .operatingCashFlow => some (.q 300000)
  | _ => none

/-- A record missing only its sector — incomplete under both the spec's
predicate and the source's. -/
def recC2incomplete : Rec := fun f =>
  match f with
  | .ticker => some (.s "ZED")
  | .exchange => some (.s "XNAS")
  | .industry => some (.s "Software")
  | .marketCap => some (.q 5000000)
  | .currentPrice => some (.q 10)
  | .totalAssets => some (.q 900000)
  | .revenue => some (.q 700000)
  | .operatingCashFlow => some (.q 300000)
  | .updatedAtF => some (.i 0)
  | _ => none

/-- A complete stored fundamentals row (every field the completeness
check looks at is truthy). -/
def rowC6 : Rec := fun f =>
  match f with
  | .ticker => some (.s "ZED")
  | .companyName => some (.s "Zed Corp")
  | .exchange => some (.s "XNAS")
  | .sector => some (.s "Software")
  | .industry => some (.s "Software")
  | .marketCap => some (.q 5000000)
  | .currentPrice => some (.q 10)
  | .totalAssets => some (.q 900000)
  | .revenue => some (.q 700000)
  | .operatingCashFlow => some (.q 300000)
  | .updatedAtF => some (.i 1000)
  | _ => none

/-- Earnings events on tickers A (known market cap), B (none) and C
(known market cap), all on one past date. -/
def evA : EEvent :=
  { id := "A1", ticker := "AAA", date := -5, time := none, importance := some 3
    eps_actual := none, eps_estimate := none, eps_surprise := none
    eps_surprise_percent := none, revenue_actual := none, revenue_estimate := none
    revenue_surprise := none, revenue_surprise_percent := none
    name := "Alpha", currency := none, period := none, period_year := none }

def evB : EEvent :=
  { id := "B1", ticker := "BBB", date := -5, time := none, importance := some 2
    eps_actual := none, eps_estimate := none, eps_surprise := none
    eps_surprise_percent := none, revenue_actual := none, revenue_estimate := none
    revenue_surprise := none, revenue_surprise_percent := none
    name := "Beta", currency := none, period := none, period_year := none }

def evC : EEvent :=
  { id := "C1", ticker := "CCC", date := -5, time := none, importance := some 1
    eps_actual := none, eps_estimate := none, eps_surprise := none
    eps_surprise_percent := none, revenue_actual := none, revenue_estimate := none
    revenue_surprise := none, revenue_surprise_percent := none
    name := "Gamma", currency := none, period := none, period_year := none }

/-- Stored market caps: A and C have one, B does not. -/
def fundRowsC3 : List MCRow := [⟨"AAA", some 300⟩, ⟨"CCC", some 100⟩]

/-- Initial state for the C3 scenario: empty cache, empty earnings
table, market caps for A and C. -/
def s0C3 : EState := ⟨[], [], fundRowsC3⟩

/-- A historical query (dateTo strictly before today = 0). -/
def q0C3 : EQuery := ⟨some (-6), some (-1), none, none⟩

/-- The upstream response for the C3 scenario. -/
def polyC3 : Option (List EEvent) := some [evB, evA, evC]

def c3call1 : GEOut := getEarnings q0C3 0 polyC3 s0C3

def c3call2 : GEOut := getEarnings q0C3 0 polyC3 c3call1.state

/-- An event on one date with a given id, ticker and time. -/
def mkEv (i : String) (t : Option String) : EEvent :=
  { id := i, ticker := i, date := 1, time := t, importance := some 0
    eps_actual := none, eps_estimate := none, eps_surprise := none
    eps_surprise_percent := none, revenue_actual := none, revenue_estimate := none
    revenue_surprise := none, revenue_surprise_percent := none
    name := i, currency := none, period := none, period_year := none }

/-- Twelve events on one date: seven before-market (no time, markers,
clock times before 09:30) and five after-market. -/
def sample12 : List EEvent :=
  [ mkEv "b1" none, mkEv "b2" (some "bmo"), mkEv "b3" (some "time-pre-market")
  , mkEv "b4" (some "before-open"), mkEv "b5" (some "07:30:00")
  , mkEv "b6" (some "09:29:00"), mkEv "b7" (some "08:00:00")
  , mkEv "a1" (some "amc"), mkEv "a2" (some "time-after-hours")
  , mkEv "a3" (some "after-close"), mkEv "a4" (some "16:00:00")
  , mkEv "a5" (some "17:45:00") ]

/-- A historical earnings row matching the C5 witness query. -/
def rowC5 : DbEarning :=
  { id := "H1", ticker := "AAA", date := -3, time := none, importance := 2
    epsActual := some 1, epsEstimate := none, epsSurprise := none
    epsSurprisePercent := none, revenueActual := none, revenueEstimate := none
    revenueSurprise := none, revenueSurprisePercent := none
    companyName := "Alpha", currency := none, period := none, periodYear := none }

/-- The ticker-details payload for the C8 scenario. -/
def tdC8 : TickerDetailsRes :=
  { name := some "Zed Corp", market_cap := some 1000, last_updated_utc := none
    close_price := some 10, share_class_shares_outstanding := some 100
    weighted_shares_outstanding := none, sic_description := some "Software"
    primary_exchange := some "XNAS", description := none, homepage_url := none }

/-- A fresh income statement with revenue 200 and net income 50. -/
def incC8 : IncomeSmartRes :=
  { revenue := some 200, consolidated_net_income_loss := some 50
    operating_income := some 80, gross_profit := some 120, ebitda := none
    diluted_earnings_per_share := none }

/-- Upstream world for the C8 scenario. -/
def wC8 : SmartWorld := ⟨.ok tdC8, none, some incC8, none, none, none⟩

def c8fetch : SmartFetchOut := fetchFromPolygonSmart "ZED" 0 none wC8

def c8upd : Rec := c8fetch.upsertFields.getD (fun _ => none)

/-- Upstream world where the identity request rejects with HTTP 404. -/
def w404 : SmartWorld := ⟨.httpErr (some 404), none, none, none, none, none⟩

/-- The pre-existing cached branding record in the C9 scenario. -/
def oldLogo : LogoData :=
  { ticker := "AAPL", iconUrl := some "old-icon", logoUrl := some "old-logo"
    companyName := "Apple (stale)", exchange := some "stocks" }

/-- The newer stored branding row the refresh should surface. -/
def newLogoRow : LogoRow :=
  { ticker := "AAPL", iconUrl := some "new-icon", logoUrl := some "new-logo"
    companyName := "Apple Inc.", exchange := some "stocks" }

/-- An earnings row whose EPS actual is exactly 0 and whose importance
is 0. -/
def rowZero : DbEarning :=
  { id := "Z1", ticker := "ZED", date := 10, time := none, importance := 0
    epsActual := some 0, epsEstimate := some (3/2), epsSurprise := none
    epsSurprisePercent := none, revenueActual := some 0, revenueEstimate := none
    revenueSurprise := none, revenueSurprisePercent := none
    companyName := "Zed Corp", currency := none, period := none, periodYear := some 2024 }

/-- `recC2` with a market cap stored as exactly 0. -/
def recC10 : Rec := fun f =>
  match f with
  | .marketCap => some (.q 0)
  | _ => recC2 f

/-- Historical query for the C5 witness. -/
def q5 : EQuery := ⟨some (-4), some (-2), none, none⟩

/-- State for the C5 witness: one stored historical row, no cache. -/
def s5 : EState := ⟨[], [rowC5], fundRowsC3⟩

/-- The market-cap sort key `filterByMarketCap` uses
(`marketCapMap.get(e.ticker.toUpperCase()) || 0`). -/
def mcValueOf (fundDB : List MCRow) (evs : List EEvent) (e : EEvent) : ℚ :=
  (((getCachedMarketCaps fundDB
      (firstOccurrences (evs.map EEvent.ticker))).lookup (jsToUpper e.ticker)).getD 0)

/-! ## Theorems -/

/-- `x ? Number(x) : undefined` erases exactly `null`/`undefined` and
the stored value 0. -/
theorem qGuard_eq_none_iff (a : Option ℚ) :
    qGuard a = none ↔ a = none ∨ a = some 0 := by
  cases a with
  | none => simp [qGuard, qTruthy]
  | some v =>
    by_cases h : v = 0 <;> simp [qGuard, qTruthy, h]

/-- Claim C10, counterexample: the claim says the converters map *any*
numeric field stored as exactly 0 to absent.  On `rowZero` the guarded
fields (EPS actual 0, revenue actual 0) do become absent, but the plain
integer field `importance` stored as 0 is copied through as a present
0, refuting the universal statement. -/
theorem c10_counterexample :
    (dbToEarningsEvent rowZero).eps_actual = none ∧
    (dbToEarningsEvent rowZero).revenue_actual = none ∧
    (dbToEarningsEvent rowZero).importance = some 0 ∧
    (some (0 : Int) : Option Int) ≠ none := by
  refine ⟨by decide, by decide, by decide, by decide⟩

/-- Claim C10, amended: `dbToEarningsEvent` maps each Decimal/BigInt
column that passes the `x ? Number(x) : undefined` guard to absent
exactly when the stored value is NULL or 0, while the plain integer
fields `importance` and `period_year` are copied as-is (a stored 0
stays 0); and the completeness check treats a stored 0 for market cap,
current price, revenue or operating cash flow as a missing field. -/
theorem c10_amended :
    (∀ db : DbEarning,
      ((dbToEarningsEvent db).eps_actual = none ↔
        db.epsActual = none ∨ db.epsActual = some 0) ∧
      ((dbToEarningsEvent db).eps_estimate = none ↔
        db.epsEstimate = none ∨ db.epsEstimate = some 0) ∧
      ((dbToEarningsEvent db).eps_surprise = none ↔
        db.epsSurprise = none ∨ db.epsSurprise = some 0) ∧
      ((dbToEarningsEvent db).eps_surprise_percent = none ↔
        db.epsSurprisePercent = none ∨ db.epsSurprisePercent = some 0) ∧
      ((dbToEarningsEvent db).revenue_actual = none ↔
        db.revenueActual = none ∨ db.revenueActual = some 0) ∧
      ((dbToEarningsEvent db).revenue_estimate = none ↔
        db.revenueEstimate = none ∨ db.revenueEstimate = some 0) ∧
      ((dbToEarningsEvent db).revenue_surprise = none ↔
        db.revenueSurprise = none ∨ db.revenueSurprise = some 0) ∧
      ((dbToEarningsEvent db).revenue_surprise_percent = none ↔
        db.revenueSurprisePercent = none ∨ db.revenueSurprisePercent = some 0) ∧
      (dbToEarningsEvent db).importance = some db.importance ∧
      (dbToEarningsEvent db).period_year = db.periodYear) ∧
    (∀ d : Rec, d .marketCap = some (.q 0) → isIncompleteData d = true) ∧
    (∀ d : Rec, d .currentPrice = some (.q 0) → isIncompleteData d = true) ∧
    (∀ d : Rec, d .revenue = some (.q 0) → isIncompleteData d = true) ∧
    (∀ d : Rec, d .operatingCashFlow = some (.q 0) → isIncompleteData d = true) := by
  refine ⟨fun db => ?_, fun d h => ?_, fun d h => ?_, fun d h => ?_, fun d h => ?_⟩
  · exact ⟨qGuard_eq_none_iff _, qGuard_eq_none_iff _, qGuard_eq_none_iff _,
      qGuard_eq_none_iff _, qGuard_eq_none_iff _, qGuard_eq_none_iff _,
      qGuard_eq_none_iff _, qGuard_eq_none_iff _, rfl, rfl⟩
  all_goals simp [isIncompleteData, h, truthyV]

/-- Claim C10, witness for the amended theorem at a concrete row and a
concrete record with a zero market cap. -/
theorem c10_amended_witness :
    (dbToEarningsEvent rowZero).importance = some rowZero.importance ∧
    isIncompleteData recC10 = true :=
  ⟨(c10_amended.1 rowZero).2.2.2.2.2.2.2.2.1, c10_amended.2.1 recC10 rfl⟩

/-- Claim C2, counterexample: `recC2` has all seven fields of the
claim's set (exchange, sector, industry, market cap, current price,
revenue, operating cash flow) present, so the claim classifies it
complete, yet the source's `isIncompleteData` classifies it incomplete
because it also requires total assets. -/
theorem c2_counterexample :
    isIncompleteData recC2 = true ∧ specIncomplete recC2 = false := by
  refine ⟨by decide, by decide⟩

/-- Claim C2, amended: a fundamentals record is incomplete exactly when
one of the claim's seven fields *or total assets* is absent/falsy; and
an incomplete cached or fresh stored record makes `getFundamentals`
call upstream even inside the staleness threshold. -/
theorem c2_amended :
    (∀ r : Rec, isIncompleteData r
      = (specIncomplete r || !(truthyV (r .totalAssets)))) ∧
    (∀ tk cacheEntry dbRow now ti ra inc bs cf wk upsertOk c,
      getCachedEntry cacheEntry = some c → isIncompleteData c = true →
      (getFundamentalsV2 tk cacheEntry dbRow now ti ra inc bs cf wk
        upsertOk).upstreamCalled = true) ∧
    (∀ tk (row : Rec) now ti ra inc bs cf wk upsertOk,
      now - updatedAtOf row < UPDATE_THRESHOLD_FUNDAMENTALS →
      isIncompleteData (dbToFundamentalsData row) = true →
      (getFundamentalsV2 tk none (some row) now ti ra inc bs cf wk
        upsertOk).upstreamCalled = true) := by
  refine ⟨fun r => ?_, ?_, ?_⟩
  · simp only [isIncompleteData, specIncomplete]
    generalize truthyV (r .exchange) = b1
    generalize truthyV (r .sector) = b2
    generalize truthyV (r .industry) = b3
    generalize truthyV (r .marketCap) = b4
    generalize truthyV (r .currentPrice) = b5
    generalize truthyV (r .totalAssets) = b6
    generalize truthyV (r .revenue) = b7
    generalize truthyV (r .operatingCashFlow) = b8
    revert b1 b2 b3 b4 b5 b6 b7 b8
    decide
  · intro tk cacheEntry dbRow now ti ra inc bs cf wk upsertOk c hc hinc
    simp [getFundamentalsV2, hc, hinc]
  · intro tk row now ti ra inc bs cf wk upsertOk hfresh hinc
    simp [getFundamentalsV2, getCachedEntry, hfresh, hinc]

/-- Claim C2, witness for the amended theorem: a record that is fresh
by timestamp but missing its sector triggers the upstream refetch. -/
theorem c2_amended_witness :
    (getFundamentalsV2 "ZED" none (some recC2incomplete) 1 none none none
      none none none true).upstreamCalled = true :=
  c2_amended.2.2 "ZED" recC2incomplete 1 none none none none none none true
    (by decide) (by decide)

/-- Claim C1, counterexample: with a prior stored record carrying a
sector and a company name, and a fresh cycle whose identity sub-fetch
failed (every sub-fetch `none`), the record returned to the caller has
lost the sector, and the persisted row's company name has been
overwritten with the empty string — both refuting the merge
invariant as claimed. -/
theorem c1_counterexample :
    priorRowC1 .sector = some (.s "Technology") ∧
    priorRowC1 .companyName = some (.s "Apple Inc.") ∧
    ((fetchFromPolygonV1 "AAPL" 100 (some priorRowC1) none none none none none
      true).result.getD (fun _ => none)) .sector = none ∧
    ((fetchFromPolygonV1 "AAPL" 100 (some priorRowC1) none none none none none
      true).newRow.getD (fun _ => none)) .companyName = some (.s "") := by
  refine ⟨rfl, rfl, rfl, by decide⟩

/-- Claim C1, amended: in the fundamentals fetch path the *persisted*
row keeps every prior value the fresh cycle did not supply and takes
every value it did supply — except `companyName`, which is always
written and becomes the empty string when no name was fetched; the
*returned* record is assembled from the fresh sub-fetches alone.  In
particular, when the identity sub-fetch fails, the persisted sector is
preserved while the persisted company name is blanked. -/
theorem c1_amended :
    ∀ (tk : String) (now : Int) (prior : Rec) (ti : Option TickerInfoRes)
      (ra : Option RatiosRes) (inc : Option IncomeRes) (bs : Option BalanceRes)
      (cf : Option CashFlowRes),
    (∀ f, updFieldV1 now (assembleV1 tk now ti ra inc bs cf) f = none →
      dbApplyUpsert (some prior) tk
        (updFieldV1 now (assembleV1 tk now ti ra inc bs cf)) f = prior f) ∧
    (∀ f v, updFieldV1 now (assembleV1 tk now ti ra inc bs cf) f = some v →
      dbApplyUpsert (some prior) tk
        (updFieldV1 now (assembleV1 tk now ti ra inc bs cf)) f = some v) ∧
    ((assembleV1 tk now ti ra inc bs cf) .name = none →
      dbApplyUpsert (some prior) tk
        (updFieldV1 now (assembleV1 tk now ti ra inc bs cf)) .companyName
        = some (.s "")) ∧
    (ti = none →
      (assembleV1 tk now ti ra inc bs cf) .sector = none ∧
      dbApplyUpsert (some prior) tk
        (updFieldV1 now (assembleV1 tk now ti ra inc bs cf)) .sector
        = prior .sector) := by
  intro tk now prior ti ra inc bs cf
  refine ⟨fun f h => ?_, fun f v h => ?_, fun h => ?_, fun h => ?_⟩
  · simp [dbApplyUpsert, prismaUpdateApply, h]
  · simp [dbApplyUpsert, prismaUpdateApply, h]
  · simp [dbApplyUpsert, prismaUpdateApply, updFieldV1, companyNameOf, h,
      strOfV, sTruthy]
  · subst h
    have hsec : (assembleV1 tk now none ra inc bs cf) .sector = none := by
      cases ra <;> cases inc <;> cases bs <;> cases cf <;>
        simp [assembleV1, applyIfFulfilled, objAssign, ratiosPatch,
          incomePatchV1, balancePatch, cashFlowPatch, baseRecord]
    refine ⟨hsec, ?_⟩
    simp [dbApplyUpsert, prismaUpdateApply, updFieldV1, hsec]

/-- Claim C1, witness for the amended theorem: with the identity fetch
failed, the persisted revenue keeps its prior value while the persisted
company name is the empty string. -/
theorem c1_amended_witness :
    dbApplyUpsert (some priorRowC1) "AAPL"
      (updFieldV1 100 (assembleV1 "AAPL" 100 none none none none none))
      .revenue = priorRowC1 .revenue ∧
    dbApplyUpsert (some priorRowC1) "AAPL"
      (updFieldV1 100 (assembleV1 "AAPL" 100 none none none none none))
      .companyName = some (.s "") :=
  ⟨(c1_amended "AAPL" 100 priorRowC1 none none none none none).1
      FField.revenue rfl,
   (c1_amended "AAPL" 100 priorRowC1 none none none none none).2.2.1 rfl⟩

/-- Claim C7: the code caches `null` under the market-cap key after an
upstream 404 as intended, but `getCached` parses a stored `null` back
to `null` and `getMarketCap`'s `if (cached)` treats it as a miss — so a
second call for the same symbol within the TTL calls upstream again,
contradicting the negative-caching contract the code's own comment
("Cache null result to avoid repeated lookups for invalid tickers")
states. -/
theorem c7_bug_eval :
    (getMarketCapSmart "ZZZZ" none none 0 w404).cacheWrite
      = some (CACHE_TTL_MARKET_CAP, none) ∧
    setCachedEntry (α := MCData) none none CACHE_TTL_MARKET_CAP = some none ∧
    getCachedEntry (α := MCData) (some none) = none ∧
    (getMarketCapSmart "ZZZZ" (some none) none 0 w404).upstreamCalled = true ∧
    (getMarketCapSmart "ZZZZ" (some none) none 0 w404).result = none := by
  refine ⟨by decide, by decide, rfl, by decide, by decide⟩

/-- Claim C9: `refreshLogo` tries to invalidate the cache entry with
`setCached(key, null, 0)`; Redis `SETEX` rejects a zero expiry, the
error is swallowed, the pre-existing entry survives, and the re-run
lookup serves exactly that pre-existing Fast Cache entry — the comment
"Delete from cache" notwithstanding, and although a newer record sits
in the Durable Store. -/
theorem c9_bug_eval :
    setCachedEntry (α := LogoData) (some (some oldLogo)) none 0
      = some (some oldLogo) ∧
    (refreshLogoM "AAPL" "key" (some (some oldLogo)) (some newLogoRow)
      .badPayload).result = some oldLogo ∧
    (refreshLogoM "AAPL" "key" (some (some oldLogo)) (some newLogoRow)
      .badPayload).fromCache = true ∧
    oldLogo.companyName ≠ newLogoRow.companyName := by
  refine ⟨by decide, by decide, by decide, by decide⟩

/-- Claim C8, counterexample: with a fresh income statement of revenue
200 and net income 50, the market-cap service persists a profit margin
of 25 — the percentage `(netIncome / revenue) * 100` — whereas the
claim's formula `net income / revenue` gives 1/4. -/
theorem c8_counterexample :
    c8upd .profitMargin = some (.q (50 / 200 * 100)) ∧
    (50 : ℚ) / 200 * 100 = 25 ∧
    (50 : ℚ) / 200 = 1 / 4 ∧
    (25 : ℚ) ≠ 1 / 4 := by
  refine ⟨rfl, by norm_num, by norm_num, by norm_num⟩

/-- Claim C8, amended: in the fundamentals service the freshly fetched
margins equal the plain ratios (net income / revenue etc.), defined
only when revenue and the respective numerator are truthy; in the
market-cap service the margins are recomputed exactly when the income
statement was fetched this cycle with a truthy positive revenue — as
percentages, `(numerator / revenue) * 100` — and are otherwise carried
over unchanged from the prior stored record (stale margins are never
recomputed from stale figures). -/
theorem c8_amended :
    (∀ (r : IncomeRes) (v n : ℚ), v ≠ 0 → n ≠ 0 →
      (incomePatchV1
          ⟨some v, r.gross_profit, r.operating_income, some n, r.ebitda⟩)
        .profitMargin = some (some (.q (n / v)))) ∧
    (∀ r : IncomeRes, qTruthy r.revenue = false →
      (incomePatchV1 r) .profitMargin = some none ∧
      (incomePatchV1 r) .operatingMargin = some none ∧
      (incomePatchV1 r) .grossMargin = some none) ∧
    (∀ prior rev ni oi gp, smartMargins prior false rev ni oi gp
      = (seedQ prior .profitMargin, seedQ prior .operatingMargin,
         seedQ prior .grossMargin)) ∧
    (∀ prior (v n : ℚ) oi gp, 0 < v →
      (smartMargins prior true (some v) (some n) oi gp).1
        = some (n / v * 100)) ∧
    (∀ prior ni oi gp, smartMargins prior true none ni oi gp
      = (seedQ prior .profitMargin, seedQ prior .operatingMargin,
         seedQ prior .grossMargin)) := by
  refine ⟨?_, ?_, ?_, ?_, ?_⟩
  · intro r v n hv hn
    simp [incomePatchV1, qTruthy, hv, hn]
  · intro r h
    refine ⟨?_, ?_, ?_⟩ <;> simp [incomePatchV1, h]
  · intro prior rev ni oi gp
    simp [smartMargins]
  · intro prior v n oi gp hv
    have hne : v ≠ 0 := ne_of_gt hv
    simp [smartMargins, qTruthy, hne, hv]
  · intro prior ni oi gp
    simp [smartMargins, qTruthy]

/-- Claim C8, witness for the amended theorem: the smart margin block
at revenue 200 / net income 50 yields the percentage 25. -/
theorem c8_amended_witness :
    (smartMargins none true (some 200) (some 50) none none).1
      = some (50 / 200 * 100) :=
  c8_amended.2.2.2.1 none 200 50 none none (by norm_num)

/-- Claim C6: with no Fast Cache entry and a stored row, a fresh
(`now - lastUpdated < UPDATE_THRESHOLD.FUNDAMENTALS`) and complete
record is returned converted, with a single Fast Cache write at
`CACHE_TTL.FUNDAMENTALS` and no upstream call; a row at or past the
threshold triggers the upstream client; and every fundamentals Fast
Cache write — on any path — uses `CACHE_TTL.FUNDAMENTALS`, whose
millisecond value equals (hence is at or before) the staleness
threshold. -/
theorem c6_staleness :
    (∀ tk (row : Rec) now ti ra inc bs cf wk upsertOk t,
      row .updatedAtF = some (.i t) →
      ((now - t < UPDATE_THRESHOLD_FUNDAMENTALS →
        isIncompleteData (dbToFundamentalsData row) = false →
        (getFundamentalsV2 tk none (some row) now ti ra inc bs cf wk
          upsertOk).result = some (dbToFundamentalsData row) ∧
        (getFundamentalsV2 tk none (some row) now ti ra inc bs cf wk
          upsertOk).upstreamCalled = false ∧
        (getFundamentalsV2 tk none (some row) now ti ra inc bs cf wk
          upsertOk).cacheWrites
          = [(CACHE_TTL_FUNDAMENTALS, dbToFundamentalsData row)]) ∧
      (UPDATE_THRESHOLD_FUNDAMENTALS ≤ now - t →
        (getFundamentalsV2 tk none (some row) now ti ra inc bs cf wk
          upsertOk).upstreamCalled = true))) ∧
    (∀ tk cacheEntry dbRow now ti ra inc bs cf wk upsertOk w,
      w ∈ (getFundamentalsV2 tk cacheEntry dbRow now ti ra inc bs cf wk
        upsertOk).cacheWrites → w.1 = CACHE_TTL_FUNDAMENTALS) ∧
    CACHE_TTL_FUNDAMENTALS * 1000 ≤ UPDATE_THRESHOLD_FUNDAMENTALS := by
  have hupd : ∀ (row : Rec) (t : Int), row .updatedAtF = some (.i t) →
      updatedAtOf row = t := by
    intro row t h
    simp [updatedAtOf, h]
  refine ⟨?_, ?_, by decide⟩
  · intro tk row now ti ra inc bs cf wk upsertOk t ht
    constructor
    · intro hfresh hcomplete
      refine ⟨?_, ?_, ?_⟩ <;>
        simp [getFundamentalsV2, getCachedEntry, hupd row t ht, hfresh, hcomplete]
    · intro hstale
      have hnot : ¬ (now - t < UPDATE_THRESHOLD_FUNDAMENTALS) := not_lt.mpr hstale
      simp only [getFundamentalsV2, getCachedEntry, Option.join]
      rw [hupd row t ht, if_neg hnot]
      simp [fetchFromPolygonV2]
  · intro tk cacheEntry dbRow now ti ra inc bs cf wk upsertOk w hw
    unfold getFundamentalsV2 fetchFromPolygonV2 at hw
    repeat' split at hw
    all_goals try (rw [apply_ite GetFundOut.cacheWrites] at hw)
    all_goals try (split at hw)
    all_goals simp_all

/-- Claim C6, witness: the complete fresh row `rowC6` is served with no
upstream call, and the same row past the threshold triggers one. -/
theorem c6_witness :
    (getFundamentalsV2 "ZED" none (some rowC6) 2000 none none none none none
      none true).upstreamCalled = false ∧
    (getFundamentalsV2 "ZED" none (some rowC6)
      (2000 + UPDATE_THRESHOLD_FUNDAMENTALS) none none none none none none
      true).upstreamCalled = true :=
  ⟨((c6_staleness.1 "ZED" rowC6 2000 none none none none none none true 1000
      rfl).1 (by decide) (by decide)).2.1,
   (c6_staleness.1 "ZED" rowC6 (2000 + UPDATE_THRESHOLD_FUNDAMENTALS) none
      none none none none none true 1000 rfl).2 (by decide)⟩

/-- Claim C5: a query whose `dateTo` is strictly before the start of
today never calls upstream once either the Redis entry or a nonempty
Durable Store row set serves it, and on a cache miss with stored rows
it returns exactly the market-cap-filtered rows; a query that is not
historical (no `dateTo`, or `dateTo` at/after today) reads neither
Redis nor the database and always calls the upstream client. -/
theorem c5_historical_immutability :
    (∀ (q : EQuery) (today : Int) (poly : Option (List EEvent)) (s : EState)
      (d : Int), q.dateTo = some d → d < today →
      (((s.earnCache.lookup (createCacheKey q)).isSome = true ∨
          fetchFromDatabase q s.earnDB ≠ []) →
        (getEarnings q today poly s).upstreamCalled = false) ∧
      (s.earnCache.lookup (createCacheKey q) = none →
        fetchFromDatabase q s.earnDB ≠ [] →
        (getEarnings q today poly s).result
          = (filterByMarketCap s.fundDB (fetchFromDatabase q s.earnDB)).1)) ∧
    (∀ (q : EQuery) (today : Int) (poly : Option (List EEvent)) (s : EState),
      (q.dateTo = none ∨ ∃ d, q.dateTo = some d ∧ today ≤ d) →
      (getEarnings q today poly s).redisRead = false ∧
      (getEarnings q today poly s).dbRead = false ∧
      (getEarnings q today poly s).upstreamCalled = true) := by
  constructor
  · intro q today poly s d hd hlt
    have hpast :
        (match q.dateTo with
          | some d => decide (d < today)
          | none => false) = true := by
      rw [hd]; simp [hlt]
    constructor
    · intro hor
      rcases hc : s.earnCache.lookup (createCacheKey q) with _ | cached
      · have hne : fetchFromDatabase q s.earnDB ≠ [] := by
          rcases hor with h | h
          · rw [hc] at h; simp at h
          · exact h
        have hlen : 0 < (fetchFromDatabase q s.earnDB).length :=
          List.length_pos.mpr hne
        simp [getEarnings, hpast, hc, hlen]
      · simp [getEarnings, hpast, hc]
    · intro hc hne
      have hlen : 0 < (fetchFromDatabase q s.earnDB).length :=
        List.length_pos.mpr hne
      simp [getEarnings, hpast, hc, hlen]
  · intro q today poly s hq
    have hnotpast :
        (match q.dateTo with
          | some d => decide (d < today)
          | none => false) = false := by
      rcases hq with h | ⟨d, hd, hle⟩
      · rw [h]
      · rw [hd]; simp [not_lt.mpr hle]
    refine ⟨?_, ?_, ?_⟩ <;> simp [getEarnings, hnotpast]

unseal List.merge List.mergeSort in
/-- Claim C5, witness: a historical query served by a stored row makes
no upstream call, and a query without `dateTo` reads neither cache nor
database and calls upstream. -/
theorem c5_witness :
    (getEarnings q5 0 none s5).upstreamCalled = false ∧
    (getEarnings ⟨none, none, none, none⟩ 0 (some []) s5).redisRead = false ∧
    (getEarnings ⟨none, none, none, none⟩ 0 (some []) s5).upstreamCalled = true :=
  ⟨(c5_historical_immutability.1 q5 0 none s5 (-2) rfl (by decide)).1
      (Or.inr (by decide)),
   (c5_historical_immutability.2 ⟨none, none, none, none⟩ 0 (some []) s5
      (Or.inl rfl)).1,
   (c5_historical_immutability.2 ⟨none, none, none, none⟩ 0 (some []) s5
      (Or.inl rfl)).2.2⟩

/-- Stable descending sort by a rational key is pairwise
descending. -/
theorem pairwise_mergeSort_ge (key : EEvent → ℚ) (l : List EEvent) :
    (l.mergeSort (fun a b => decide (key b ≤ key a))).Pairwise
      (fun a b => key b ≤ key a) := by
  have h := @List.sorted_mergeSort EEvent
    (fun a b => decide (key b ≤ key a))
    (fun a b c h1 h2 => by
      simp only [decide_eq_true_eq] at *
      exact le_trans h2 h1)
    (fun a b => by
      simp only [Bool.or_eq_true, decide_eq_true_eq]
      exact le_total (key b) (key a))
    l
  exact h.imp (fun hab => by simpa using hab)

unseal List.merge List.mergeSort in
/-- Claim C3, counterexample: after a first historical `getEarnings`
call is served from upstream (which caches the *unfiltered* event list
under the query key), a second identical call is served from the Fast
Cache and returns the event for ticker BBB even though no market cap is
stored for BBB — refuting "every event list returned by getEarnings is
filtered to only those tickers that have a known market
capitalization". -/
theorem c3_counterexample :
    c3call1.result = [evA, evC] ∧
    evB ∈ c3call2.result ∧
    getCachedMarketCaps c3call2.state.fundDB ["BBB"] = [] ∧
    c3call2.upstreamCalled = false := by
  refine ⟨by decide, by decide, by decide, by decide⟩

unseal List.merge List.mergeSort in
/-- Claim C3, amended: every event list *computed in the current call*
(from the Durable Store or the upstream API) is filtered to exactly the
events whose ticker has a stored nonzero market cap — using only
already-stored market-cap data, with the missing tickers reported to a
background fetch — and is sorted descending by market cap; for events
on tickers A (has market cap), B (none), C (has market cap) the freshly
computed list is exactly A then C.  However, the upstream path caches
the unfiltered list, so a later identical historical query can be
served from the Fast Cache without the filter (see the
counterexample). -/
theorem c3_amended :
    (∀ (fundDB : List MCRow) (evs : List EEvent) (e : EEvent),
      e ∈ (filterByMarketCap fundDB evs).1 ↔
        e ∈ evs ∧ ((getCachedMarketCaps fundDB
          (firstOccurrences (evs.map EEvent.ticker))).lookup
            (jsToUpper e.ticker)).isSome = true) ∧
    (∀ (fundDB : List MCRow) (evs : List EEvent),
      (filterByMarketCap fundDB evs).1.Pairwise
        (fun a b => mcValueOf fundDB evs b ≤ mcValueOf fundDB evs a)) ∧
    (∀ (fundDB : List MCRow) (evs : List EEvent),
      (filterByMarketCap fundDB evs).2
        = (evs.filter (fun e => !((getCachedMarketCaps fundDB
            (firstOccurrences (evs.map EEvent.ticker))).lookup
              (jsToUpper e.ticker)).isSome)).map EEvent.ticker) ∧
    (filterByMarketCap fundRowsC3 [evB, evA, evC]).1 = [evA, evC] ∧
    (filterByMarketCap fundRowsC3 [evB, evA, evC]).2 = ["BBB"] := by
  refine ⟨?_, ?_, ?_, by decide, by decide⟩
  · intro fundDB evs e
    by_cases h : evs.isEmpty = true
    · have he : evs = [] := List.isEmpty_iff.mp h
      subst he
      simp [filterByMarketCap]
    · unfold filterByMarketCap
      rw [if_neg h]
      simp [List.mem_filter]
  · intro fundDB evs
    by_cases h : evs.isEmpty = true
    · have he : evs = [] := List.isEmpty_iff.mp h
      subst he
      simp [filterByMarketCap]
    · unfold filterByMarketCap
      rw [if_neg h]
      exact pairwise_mergeSort_ge (mcValueOf fundDB evs) _
  · intro fundDB evs
    by_cases h : evs.isEmpty = true
    · have he : evs = [] := List.isEmpty_iff.mp h
      subst he
      simp [filterByMarketCap]
    · unfold filterByMarketCap
      rw [if_neg h]

/-- Folding the first-occurrence collector over a constant list leaves
`[d]` unchanged. -/
theorem foldl_firstOcc_const (d : Int) :
    ∀ (l : List Int), (∀ x ∈ l, x = d) →
      l.foldl (fun acc x => if x ∈ acc then acc else acc ++ [x]) [d] = [d] := by
  intro l
  induction l with
  | nil => intro _; rfl
  | cons a rest ih =>
    intro h
    have ha : a = d := h a (List.mem_cons_self a rest)
    subst ha
    simp only [List.foldl_cons, List.mem_singleton, if_pos rfl]
    exact ih (fun x hx => h x (List.mem_cons_of_mem a hx))

/-- On a nonempty single-date list the date groups collapse to one. -/
theorem firstOccurrences_const (es : List EEvent) (d : Int) (hne : es ≠ [])
    (hd : ∀ e ∈ es, e.date = d) :
    firstOccurrences (es.map EEvent.date) = [d] := by
  rcases es with _ | ⟨e, rest⟩
  · exact absurd rfl hne
  · have he : e.date = d := hd e (List.mem_cons_self e rest)
    simp only [firstOccurrences, List.map_cons, List.foldl_cons,
      List.not_mem_nil, if_neg (List.not_mem_nil e.date), List.nil_append]
    rw [he]
    exact foldl_firstOcc_const d (rest.map EEvent.date)
      (fun x hx => by
        rcases List.mem_map.mp hx with ⟨y, hy, hxy⟩
        rw [← hxy]
        exact hd y (List.mem_cons_of_mem e hy))

/-- Everything `extractPrimaryEarnings` selects comes from the input
list. -/
theorem mem_of_mem_extractPrimary {es : List EEvent} {e : EEvent}
    (h : e ∈ extractPrimaryEarnings es) : e ∈ es := by
  simp only [extractPrimaryEarnings, List.mem_flatten, List.mem_map] at h
  rcases h with ⟨l, ⟨d, _, hl⟩, hel⟩
  rw [← hl] at hel
  rcases List.mem_append.mp hel with h5 | h5 <;>
    exact (List.mem_filter.mp (List.mem_filter.mp
      (List.mem_of_mem_take h5)).1).1

unseal splitOnAuxL in
/-- Claim C4: the source's before-market predicate selects exactly the
events the spec describes (no time, explicit pre-market marker, clock
time before 09:30), the after-market predicate exactly the post-market
markers and clock times at/after 16:00; on a single-date list the
primary selection is the first five of each bucket; the secondary list
is exactly the events not selected as primary (given distinct event
ids); and on a concrete date with 7 before-market and 5 after-market
events the primary list has exactly 10 events, with the remaining two
before-market events appearing only in the secondary list. -/
theorem c4_session_bucketing :
    (∀ t, beforeOpenPred t = specBeforeMarket t) ∧
    (∀ t, afterClosePred t = specAfterMarket t) ∧
    (∀ (es : List EEvent) (d : Int), es ≠ [] → (∀ e ∈ es, e.date = d) →
      extractPrimaryEarnings es
        = (es.filter (fun e => beforeOpenPred e.time)).take 5
          ++ (es.filter (fun e => afterClosePred e.time)).take 5) ∧
    (∀ es : List EEvent, (es.map EEvent.id).Nodup →
      ∀ e ∈ es, (e ∈ secondaryOf es ↔ e ∉ extractPrimaryEarnings es)) ∧
    ((sample12.filter (fun e => beforeOpenPred e.time)).length = 7 ∧
     (sample12.filter (fun e => afterClosePred e.time)).length = 5 ∧
     (extractPrimaryEarnings sample12).length = 10 ∧
     extractPrimaryEarnings sample12
       = [mkEv "b1" none, mkEv "b2" (some "bmo"),
          mkEv "b3" (some "time-pre-market"), mkEv "b4" (some "before-open"),
          mkEv "b5" (some "07:30:00"), mkEv "a1" (some "amc"),
          mkEv "a2" (some "time-after-hours"), mkEv "a3" (some "after-close"),
          mkEv "a4" (some "16:00:00"), mkEv "a5" (some "17:45:00")] ∧
     secondaryOf sample12
       = [mkEv "b6" (some "09:29:00"), mkEv "b7" (some "08:00:00")]) := by
  refine ⟨?_, ?_, ?_, ?_, by decide, by decide, by decide, by decide, by decide⟩
  · intro t
    rcases t with _ | s
    · rfl
    · simp only [beforeOpenPred, specBeforeMarket, specPreMarketMarker,
        specClockBefore930]
      cases h1 : (s == "bmo" || s == "time-pre-market" || strContains s "before")
      · cases h2 : strContains s ":" <;> simp [h1, h2]
      · simp [h1]
  · intro t
    rcases t with _ | s
    · rfl
    · simp only [afterClosePred, specAfterMarket, specPostMarketMarker,
        specClockAtOrAfter1600]
      cases h1 : (s == "amc" || s == "time-after-hours" || strContains s "after")
      · cases h2 : strContains s ":" <;> simp [h1, h2]
      · simp [h1]
  · intro es d hne hd
    unfold extractPrimaryEarnings
    rw [firstOccurrences_const es d hne hd]
    have hfilter : es.filter (fun e => decide (e.date = d)) = es :=
      List.filter_eq_self.mpr (fun e he => by simp [hd e he])
    simp only [List.map_cons, List.map_nil, List.flatten_cons,
      List.flatten_nil, List.append_nil]
    rw [hfilter]
  · intro es hnd e he
    constructor
    · intro hs hp
      have hmem := (List.mem_filter.mp hs).2
      rw [Bool.not_eq_true'] at hmem
      have hin : ((extractPrimaryEarnings es).map EEvent.id).contains e.id
          = true :=
        List.elem_iff.mpr (List.mem_map.mpr ⟨e, hp, rfl⟩)
      rw [hmem] at hin
      exact Bool.false_ne_true hin
    · intro hp
      refine List.mem_filter.mpr ⟨he, ?_⟩
      rw [Bool.not_eq_true']
      by_contra hcont
      rw [Bool.not_eq_false] at hcont
      rw [List.contains_iff_exists_mem_beq] at hcont
      rcases hcont with ⟨pid, hpid, hbeq⟩
      rcases List.mem_map.mp hpid with ⟨p, hpmem, hpid2⟩
      have hpe : p.id = e.id := by
        rw [hpid2]
        exact (beq_iff_eq.mp hbeq).symm
      have hpes : p ∈ es := mem_of_mem_extractPrimary hpmem
      have hpeq : p = e := List.inj_on_of_nodup_map hnd hpes he hpe
      rw [hpeq] at hpmem
      exact hp hpmem

unseal splitOnAuxL in
/-- Claim C4, witness: the single-date and secondary-complement parts
of the bucketing theorem instantiated on the twelve-event sample. -/
theorem c4_witness :
    extractPrimaryEarnings sample12
      = (sample12.filter (fun e => beforeOpenPred e.time)).take 5
        ++ (sample12.filter (fun e => afterClosePred e.time)).take 5 ∧
    (mkEv "b6" (some "09:29:00") ∈ secondaryOf sample12 ↔
      mkEv "b6" (some "09:29:00") ∉ extractPrimaryEarnings sample12) :=
  ⟨c4_session_bucketing.2.2.1 sample12 1 (by decide) (by decide),
   c4_session_bucketing.2.2.2.1 sample12 (by decide)
     (mkEv "b6" (some "09:29:00")) (by decide)⟩

end EarningsDb
